import Mathlib

/-!
Verification development for the ZiPlayer playback-orchestration engine.

The definitions below are a shallow embedding of the TypeScript sources:
  * src/core/src/plugins/index.ts        (PluginManager)
  * src/core/src/extensions/index.ts     (ExtensionManager)
  * src/core/src/structures/Player.ts    (Player: search cache, play, TTS
                                          interrupt, filters, volume)
  * src/core/src/types/index.ts          (data model, PREDEFINED_FILTERS)

Asynchronous provider calls are modelled by an explicit outcome type
(`CallOutcome`): a call either throws (covering rejections and
`withTimeout` timeouts, which the orchestrator treats identically) or
resolves to a value that may be null.  Event emission is modelled by an
explicit event list, and method-invocation order by explicit call logs.
-/

namespace ZiPlayer

/-- A resolved, playable unit of audio metadata
(src/core/src/types/index.ts, `interface Track`). -/
structure Track where
  id : String
  title : String
  url : String
  duration : Nat
  requestedBy : String
  source : String
  deriving Repr, DecidableEq

/-- Streaming information (`interface StreamInfo`).  The `stream` field models
the JS truthiness of the byte-stream handle (the code only ever tests
`streamInfo?.stream`); `sid` tags the handle identity so that distinct
streams are distinguishable values. -/
structure StreamInfo where
  stream : Bool
  sid : Nat
  deriving Repr, DecidableEq

/-- Playlist descriptor of a `SearchResult`. -/
structure Playlist where
  name : String
  url : String
  deriving Repr, DecidableEq

/-- `interface SearchResult`: a track list plus an optional playlist descriptor. -/
structure SearchResult where
  tracks : List Track
  playlist : Option Playlist
  deriving Repr, DecidableEq

/-- Outcome of awaiting a provider or extension call (wrapped in `withTimeout`
where the code does so): `throws` covers a rejection or a timeout — the
orchestrator catches both identically — and `returns v` a resolution,
where `none` models a null/undefined value. -/
inductive CallOutcome (α : Type) where
  | throws : CallOutcome α
  | returns : Option α → CallOutcome α
  deriving Repr, DecidableEq

/-- A source provider (the `SourcePlugin` contract of
src/core/src/types/index.ts as used by PluginManager).  `canHandle`,
`search` and `getStream` are required methods; `getFallback` is optional,
which the code probes with a `typeof ... === "function"` check. -/
structure BasePlugin where
  name : String
  canHandle : String → Bool
  search : String → String → CallOutcome SearchResult
  getStream : Track → CallOutcome StreamInfo
  getFallback : Option (Track → CallOutcome StreamInfo)

/-- JS truthiness of `(streamInfo as any)?.stream`. -/
def usableO : Option StreamInfo → Bool
  | some s => s.stream
  | none => false

/-- `PluginManager.get(name)`: plugins are kept in a `Map` keyed by name, so
lookup is by exact name over the registration-ordered list. -/
def pmGet (ps : List BasePlugin) (name : String) : Option BasePlugin :=
  ps.find? (fun p => p.name == name)

/-- `PluginManager.findPlugin(query)`: first plugin whose `canHandle` accepts. -/
def pmFindPlugin (ps : List BasePlugin) (query : String) : Option BasePlugin :=
  ps.find? (fun p => p.canHandle query)

/-- `this.get(track.source) || this.findPlugin(track.url)` (plugins/index.ts:59). -/
def pmSelect (ps : List BasePlugin) (t : Track) : Option BasePlugin :=
  (pmGet ps t.source).orElse (fun _ => pmFindPlugin ps t.url)

/-- One logged invocation of a plugin stream method. -/
inductive Attempt where
  | primary : String → Attempt
  | fallback : String → Attempt
  deriving Repr, DecidableEq

/-- `typeof (p as any).getStream === "function"`: `getStream` is a required
method of the plugin contract, so this JS check is constantly true. -/
def hasGetStreamFn (_p : BasePlugin) : Bool := true

/-- The skip condition of the fallback loop (plugins/index.ts:79):
`typeof p.getFallback !== "function" && typeof p.getStream !== "function"`. -/
def skipCheck (p : BasePlugin) : Bool :=
  !p.getFallback.isSome && !hasGetStreamFn p

/-- The `for (const p of allplugs)` loop of the catch handler
(plugins/index.ts:78-94), with an invocation log.  For each plugin the loop
awaits `p.getStream`; if that throws the `try` is aborted, so `p.getFallback`
is NOT attempted and the loop moves on.  If `p.getStream` resolves without a
usable stream, `p.getFallback(track)` is called — when the method is absent
this raises a TypeError that the same handler catches.  Only a usable stream
breaks the loop; any other value left in `streamInfo` is rejected by the
final `!streamInfo?.stream` test, which the `none` result models. -/
def tryPlugins : List BasePlugin → Track → Option StreamInfo × List Attempt
  | [], _ => (none, [])
  | p :: rest, t =>
    if skipCheck p then
      tryPlugins rest t
    else
      match p.getStream t with
      | CallOutcome.throws =>
        let r := tryPlugins rest t
        (r.1, Attempt.primary p.name :: r.2)
      | CallOutcome.returns v =>
        if usableO v then (v, [Attempt.primary p.name])
        else
          match p.getFallback with
          | none =>
            let r := tryPlugins rest t
            (r.1, Attempt.primary p.name :: r.2)
          | some fb =>
            match fb t with
            | CallOutcome.throws =>
              let r := tryPlugins rest t
              (r.1, Attempt.primary p.name :: Attempt.fallback p.name :: r.2)
            | CallOutcome.returns w =>
              if usableO w then (w, [Attempt.primary p.name, Attempt.fallback p.name])
              else
                let r := tryPlugins rest t
                (r.1, Attempt.primary p.name :: Attempt.fallback p.name :: r.2)

/-- The catch handler of `PluginManager.getStream` (plugins/index.ts:75-98):
run the fallback loop; if no usable stream was found, throw the
"All getFallback attempts failed" error naming the track. -/
def pmFallbackPhase (ps : List BasePlugin) (t : Track) (firstLog : List Attempt) :
    Except String (Option StreamInfo) × List Attempt :=
  let r := tryPlugins ps t
  match r.1 with
  | some s => (Except.ok (some s), firstLog ++ r.2)
  | none =>
    (Except.error (String.append "All getFallback attempts failed for track: " t.title),
      firstLog ++ r.2)

/-- `PluginManager.getStream(track)` (plugins/index.ts:57-101), identical
character for character to `Player.getStreamFromPlugin` (Player.ts:266-310).
Returns `ok none` for the `return null` path (no plugin found), `ok (some s)`
for a resolved stream, `error msg` for a thrown error; the second component
logs every plugin stream-method invocation in order. -/
def pmGetStream (ps : List BasePlugin) (t : Track) :
    Except String (Option StreamInfo) × List Attempt :=
  match pmSelect ps t with
  | none => (Except.ok none, [])
  | some plugin =>
    match plugin.getStream t with
    | CallOutcome.throws => pmFallbackPhase ps t [Attempt.primary plugin.name]
    | CallOutcome.returns v =>
      if usableO v then (Except.ok v, [Attempt.primary plugin.name])
      else pmFallbackPhase ps t [Attempt.primary plugin.name]

/-- Whether a plugin's `getStream` resolves with a usable stream. -/
def primaryUsable (p : BasePlugin) (t : Track) : Bool :=
  match p.getStream t with
  | CallOutcome.throws => false
  | CallOutcome.returns v => usableO v

/-- Whether a plugin exposes `getFallback` and it resolves with a usable stream. -/
def fallbackUsable (p : BasePlugin) (t : Track) : Bool :=
  match p.getFallback with
  | none => false
  | some fb =>
    match fb t with
    | CallOutcome.throws => false
    | CallOutcome.returns v => usableO v

/-- The value of a plugin's resolved `getStream` (none when it throws). -/
def primaryValue (p : BasePlugin) (t : Track) : Option StreamInfo :=
  match p.getStream t with
  | CallOutcome.throws => none
  | CallOutcome.returns v => v

/-- The value of a plugin's resolved `getFallback` (none when absent or thrown). -/
def fallbackValue (p : BasePlugin) (t : Track) : Option StreamInfo :=
  match p.getFallback with
  | none => none
  | some fb =>
    match fb t with
    | CallOutcome.throws => none
    | CallOutcome.returns v => v

/-- The stream a provider "yields" in the sense of the specification text:
its `getStream` result if usable, else its `getFallback` result if usable. -/
def specYield (p : BasePlugin) (t : Track) : Option StreamInfo :=
  if primaryUsable p t then primaryValue p t
  else if fallbackUsable p t then fallbackValue p t
  else none

/-- First provider, in registration order, whose `getStream` or `getFallback`
yields a usable stream — the reading of the specification sentence. -/
def firstSpecYield : List BasePlugin → Track → Option StreamInfo
  | [], _ => none
  | p :: rest, t => (specYield p t).orElse (fun _ => firstSpecYield rest t)

/-- What one iteration of the code's fallback loop can actually yield:
the primary result if usable; the fallback result only when the primary
RESOLVED (did not throw) without a usable stream. -/
def loopYield (p : BasePlugin) (t : Track) : Option StreamInfo :=
  match p.getStream t with
  | CallOutcome.throws => none
  | CallOutcome.returns v =>
    if usableO v then v
    else
      match p.getFallback with
      | none => none
      | some fb =>
        match fb t with
        | CallOutcome.throws => none
        | CallOutcome.returns w => if usableO w then w else none

/-- First provider yield under the code's loop discipline. -/
def firstLoopYield : List BasePlugin → Track → Option StreamInfo
  | [], _ => none
  | p :: rest, t => (loopYield p t).orElse (fun _ => firstLoopYield rest t)

/-- Claim C1 formalised as stated: whenever the declared provider's
`getStream` fails and some other registered provider's `getStream` or
`getFallback` yields a usable stream, the manager returns the stream of the
first provider (in registration order) whose `getStream` or `getFallback`
yields a usable stream. -/
def C1Stated (ps : List BasePlugin) (t : Track) : Prop :=
  ∀ d, pmSelect ps t = some d →
    primaryUsable d t = false →
    (∃ p, p ∈ ps ∧ p.name ≠ d.name ∧ (primaryUsable p t || fallbackUsable p t) = true) →
    ∀ s, firstSpecYield ps t = some s →
      (pmGetStream ps t).1 = Except.ok (some s)

/-- Counterexample fixture: the usable stream of the second plugin's fallback. -/
def sC1a : StreamInfo := { stream := true, sid := 2 }

/-- Counterexample fixture: the usable stream of the third plugin's primary. -/
def sC1b : StreamInfo := { stream := true, sid := 3 }

/-- Counterexample fixture track, declaring source "p1". -/
def tC1 : Track :=
  { id := "t1", title := "Song One", url := "u1", duration := 100,
    requestedBy := "u", source := "p1" }

/-- Fixture: declared provider; `getStream` rejects, no fallback. -/
def pC1a : BasePlugin :=
  { name := "p1", canHandle := fun _ => false,
    search := fun _ _ => CallOutcome.throws,
    getStream := fun _ => CallOutcome.throws, getFallback := none }

/-- Fixture: provider whose `getStream` rejects but whose `getFallback`
yields a usable stream. -/
def pC1b : BasePlugin :=
  { name := "p2", canHandle := fun _ => false,
    search := fun _ _ => CallOutcome.throws,
    getStream := fun _ => CallOutcome.throws,
    getFallback := some (fun _ => CallOutcome.returns (some sC1a)) }

/-- Fixture: provider whose `getStream` yields a usable stream. -/
def pC1c : BasePlugin :=
  { name := "p3", canHandle := fun _ => false,
    search := fun _ _ => CallOutcome.throws,
    getStream := fun _ => CallOutcome.returns (some sC1b), getFallback := none }

/-- Counterexample registry, in registration order. -/
def psC1 : List BasePlugin := [pC1a, pC1b, pC1c]

/-- Fixture for C2/C10: a provider whose `getStream` always rejects. -/
def pC2 : BasePlugin :=
  { name := "q1", canHandle := fun _ => false,
    search := fun _ _ => CallOutcome.throws,
    getStream := fun _ => CallOutcome.throws, getFallback := none }

/-- Fixture track for C2, declaring source "q1". -/
def tC2 : Track :=
  { id := "t2", title := "Lost Song", url := "u2", duration := 100,
    requestedBy := "u", source := "q1" }

/-- Registry for the C2 witness. -/
def psC2 : List BasePlugin := [pC2]

/-- Fixture track for C10: no provider matches its source or URL. -/
def tC10 : Track :=
  { id := "t10", title := "Orphan", url := "zzz", duration := 1,
    requestedBy := "u", source := "nowhere" }

/-- `ExtensionPlayRequest` (types/index.ts): the mutable request threaded
through the before-play hook chain.  The query is a string or a Track. -/
structure PlayRequest where
  query : Sum String Track
  requestedBy : Option String
  deriving Repr, DecidableEq

/-- `ExtensionPlayResponse` (types/index.ts): every field optional; `rerror`
models the presence of an `Error` by its message. -/
structure PlayResponse where
  handled : Option Bool
  rquery : Option (Sum String Track)
  rrequestedBy : Option String
  rtracks : Option (List Track)
  risPlaylist : Option Bool
  rsuccess : Option Bool
  rerror : Option String
  deriving Repr, DecidableEq

/-- A cross-cutting add-on (`BaseExtension`); each hook is optional, probed by
the code with `typeof hook === "function"`.  A hook invocation either throws
(`throws`, caught per extension) or resolves (`returns`), where `none`
models a null/undefined/void resolution.  The after-play hook's outcome is
modelled directly since the caller ignores its value. -/
structure BaseExtension where
  name : String
  provideSearch : Option (String → String → CallOutcome SearchResult)
  provideStream : Option (Track → CallOutcome StreamInfo)
  beforePlay : Option (PlayRequest → CallOutcome PlayResponse)
  afterPlay : Option (CallOutcome Unit)

/-- `ExtensionManager.provideSearch` (extensions/index.ts:99-115), identical
to `Player.extensionsProvideSearch` (Player.ts:230-246): run hooks in
registration order; the first result with a non-empty `tracks` array wins;
a thrown hook is caught and the chain continues; extensions without the hook
are skipped.  The second component logs, in order, the names of the
extensions whose hook was actually invoked. -/
def emProvideSearch : List BaseExtension → String → String → Option SearchResult × List String
  | [], _, _ => (none, [])
  | e :: rest, q, rb =>
    match e.provideSearch with
    | none => emProvideSearch rest q rb
    | some hook =>
      match hook q rb with
      | CallOutcome.throws =>
        let r := emProvideSearch rest q rb
        (r.1, e.name :: r.2)
      | CallOutcome.returns none =>
        let r := emProvideSearch rest q rb
        (r.1, e.name :: r.2)
      | CallOutcome.returns (some res) =>
        if res.tracks.isEmpty then
          let r := emProvideSearch rest q rb
          (r.1, e.name :: r.2)
        else (some res, [e.name])

/-- `ExtensionManager.provideStream` (extensions/index.ts:117-133), identical
to `Player.extensionsProvideStream` (Player.ts:248-264): first result with a
truthy `stream` wins; thrown hooks are caught; hook-less extensions skipped. -/
def emProvideStream : List BaseExtension → Track → Option StreamInfo × List String
  | [], _ => (none, [])
  | e :: rest, t =>
    match e.provideStream with
    | none => emProvideStream rest t
    | some hook =>
      match hook t with
      | CallOutcome.throws =>
        let r := emProvideStream rest t
        (r.1, e.name :: r.2)
      | CallOutcome.returns none =>
        let r := emProvideStream rest t
        (r.1, e.name :: r.2)
      | CallOutcome.returns (some s) =>
        if s.stream then (some s, [e.name])
        else
          let r := emProvideStream rest t
          (r.1, e.name :: r.2)

/-- Whether one extension's search hook yields a usable (non-empty) result. -/
def searchHookAccept (e : BaseExtension) (q rb : String) : Option SearchResult :=
  match e.provideSearch with
  | none => none
  | some hook =>
    match hook q rb with
    | CallOutcome.throws => none
    | CallOutcome.returns none => none
    | CallOutcome.returns (some res) => if res.tracks.isEmpty then none else some res

/-- First extension (in registration order) whose search hook yields a
non-empty result — the claimed first-match-wins semantics. -/
def firstSearchAccept : List BaseExtension → String → String → Option SearchResult
  | [], _, _ => none
  | e :: rest, q, rb => (searchHookAccept e q rb).orElse (fun _ => firstSearchAccept rest q rb)

/-- Whether one extension's stream hook yields a usable stream. -/
def streamHookAccept (e : BaseExtension) (t : Track) : Option StreamInfo :=
  match e.provideStream with
  | none => none
  | some hook =>
    match hook t with
    | CallOutcome.throws => none
    | CallOutcome.returns none => none
    | CallOutcome.returns (some s) => if s.stream then some s else none

/-- First extension whose stream hook yields a usable stream. -/
def firstStreamAccept : List BaseExtension → Track → Option StreamInfo
  | [], _ => none
  | e :: rest, t => (streamHookAccept e t).orElse (fun _ => firstStreamAccept rest t)

/-- C5 fixture track. -/
def tC5 : Track :=
  { id := "t5", title := "Chain Song", url := "u5", duration := 9,
    requestedBy := "u", source := "s" }

/-- C5 fixture search result (one track). -/
def resC5 : SearchResult := { tracks := [tC5], playlist := none }

/-- C5 fixture search result of the later extension. -/
def resC5c : SearchResult :=
  { tracks := [{ tC5 with id := "t5c" }], playlist := none }

/-- C5 fixture: an extension whose hooks throw. -/
def eC5a : BaseExtension :=
  { name := "e1",
    provideSearch := some (fun _ _ => CallOutcome.throws),
    provideStream := some (fun _ => CallOutcome.throws),
    beforePlay := none, afterPlay := none }

/-- C5 fixture: an extension whose hooks yield usable results. -/
def eC5b : BaseExtension :=
  { name := "e2",
    provideSearch := some (fun _ _ => CallOutcome.returns (some resC5)),
    provideStream := some (fun _ => CallOutcome.returns (some { stream := true, sid := 5 })),
    beforePlay := none, afterPlay := none }

/-- C5 fixture: a later extension that would also yield. -/
def eC5c : BaseExtension :=
  { name := "e3",
    provideSearch := some (fun _ _ => CallOutcome.returns (some resC5c)),
    provideStream := some (fun _ => CallOutcome.returns (some { stream := true, sid := 6 })),
    beforePlay := none, afterPlay := none }

/-- Session events relevant to the claims (a subset of `PlayerEvents`). -/
inductive PEvent where
  | playerError
  | ttsStart
  | ttsEnd
  | queueAdd
  | queueAddList
  deriving Repr, DecidableEq

/-- `SEARCH_CACHE_TTL` (Player.ts:110): two minutes in milliseconds. -/
def SEARCH_CACHE_TTL : Nat := 2 * 60 * 1000

/-- JS `String.prototype.toLowerCase`, character-wise. -/
def jsToLower (s : String) : String := String.mk (s.data.map Char.toLower)

/-- Whether the first list is an initial segment of the second. -/
def jsStartsList : List Char → List Char → Bool
  | [], _ => true
  | _ :: _, [] => false
  | a :: as, b :: bs => a == b && jsStartsList as bs

/-- JS `String.prototype.startsWith`. -/
def jsStartsWith (s pat : String) : Bool := jsStartsList pat.data s.data

/-- JS `String.prototype.trim`: strip whitespace from both ends. -/
def jsTrim (s : String) : String :=
  String.mk (((s.data.dropWhile Char.isWhitespace).reverse.dropWhile Char.isWhitespace).reverse)

/-- Whether `pat` occurs inside `l` (used for JS `includes`). -/
def hasSubList (pat : List Char) : List Char → Bool
  | [] => pat.isEmpty
  | b :: rest => jsStartsList pat (b :: rest) || hasSubList pat rest

/-- JS `String.prototype.includes`. -/
def jsIncludes (s pat : String) : Bool := hasSubList pat.data s.data

/-- JS `Map.get` over an insertion-ordered association list. -/
def lookupA {α : Type} : List (String × α) → String → Option α
  | [], _ => none
  | e :: rest, k => if e.1 == k then some e.2 else lookupA rest k

/-- JS `Map.set`: replace in place when the key exists, else append. -/
def setA {α : Type} : List (String × α) → String → α → List (String × α)
  | [], k, v => [(k, v)]
  | e :: rest, k, v => if e.1 == k then (k, v) :: rest else e :: setA rest k v

/-- The search-cache key `query.toLowerCase().trim()` (Player.ts:994). -/
def cacheKey (q : String) : String := jsTrim (jsToLower q)

/-- The two maps backing the search cache (Player.ts:109-111). -/
structure SearchState where
  cache : List (String × SearchResult)
  timestamps : List (String × Nat)
  deriving Repr, DecidableEq

/-- `Player.getCachedSearchResult` (Player.ts:993-1007).  The JS guard
`cachedTimestamp && now - cachedTimestamp < TTL` treats a zero timestamp as
missing (falsy); Nat subtraction truncates exactly where the JS difference
would be negative, in which case both sides pass the `< TTL` test. -/
def getCachedSearchResult (st : SearchState) (q : String) (now : Nat) : Option SearchResult :=
  match lookupA st.timestamps (cacheKey q) with
  | none => none
  | some ts =>
    if ts ≠ 0 ∧ now - ts < SEARCH_CACHE_TTL then lookupA st.cache (cacheKey q)
    else none

/-- `Player.cacheSearchResult` (Player.ts:1014-1021). -/
def cacheSearchResult (st : SearchState) (q : String) (r : SearchResult) (now : Nat) :
    SearchState :=
  { cache := setA st.cache (cacheKey q) r,
    timestamps := setA st.timestamps (cacheKey q) now }

/-- `Player.clearExpiredSearchCache` (Player.ts:1026-1035): delete, from both
maps, every key whose timestamp has expired.  A cache entry with no
timestamp is never visited by the loop over `searchCacheTimestamps`, hence
kept. -/
def clearExpiredSearchCache (st : SearchState) (now : Nat) : SearchState :=
  { cache := st.cache.filter (fun e =>
      match lookupA st.timestamps e.1 with
      | some ts => decide (now - ts < SEARCH_CACHE_TTL)
      | none => true),
    timestamps := st.timestamps.filter (fun e => decide (now - e.2 < SEARCH_CACHE_TTL)) }

/-- The TTS-plugin filter of `Player.search` (Player.ts:710-718): a plugin
named "tts" (case-insensitively) is skipped unless the query starts with
"tts:". -/
def searchPlugins (ps : List BasePlugin) (q : String) : List BasePlugin :=
  ps.filter (fun p => !(jsToLower p.name == "tts" && !(jsStartsWith (jsToLower q) "tts:")))

/-- The provider loop of `Player.search` (Player.ts:725-749): try each
plugin's `search` under `withTimeout`; a throw is remembered in `lastError`
and the loop continues; an empty result continues; the first non-empty
result returns immediately.  Components: result, invocation log (plugin
names in order), and whether some attempt threw (the final `if (lastError)`
test, consulted only when no result was found). -/
def pluginSearchLoop : List BasePlugin → String → String → Option SearchResult × List String × Bool
  | [], _, _ => (none, [], false)
  | p :: rest, q, rb =>
    match p.search q rb with
    | CallOutcome.throws =>
      let r := pluginSearchLoop rest q rb
      (r.1, p.name :: r.2.1, true)
    | CallOutcome.returns none =>
      let r := pluginSearchLoop rest q rb
      (r.1, p.name :: r.2.1, r.2.2)
    | CallOutcome.returns (some res) =>
      if res.tracks.isEmpty then
        let r := pluginSearchLoop rest q rb
        (r.1, p.name :: r.2.1, r.2.2)
      else (some res, [p.name], false)

/-- Result of one `Player.search` call: outcome, new cache state, plugin
`search` invocations, and emitted events. -/
structure SearchRun where
  result : Except String SearchResult
  state : SearchState
  calls : List String
  events : List PEvent

/-- `Player.search` after the optional cache cleanup (Player.ts:695-753):
cache check first, then the extension chain, then the provider loop; a
successful result is cached; on exhaustion a player-error event is emitted
only when some provider threw, and the "No plugin found to handle" error is
thrown. -/
def playerSearchCore (exts : List BaseExtension) (ps : List BasePlugin)
    (st : SearchState) (q rb : String) (now : Nat) : SearchRun :=
  match getCachedSearchResult st q now with
  | some cached => { result := Except.ok cached, state := st, calls := [], events := [] }
  | none =>
    match (emProvideSearch exts q rb).1 with
    | some extRes =>
      { result := Except.ok extRes, state := cacheSearchResult st q extRes now,
        calls := [], events := [] }
    | none =>
      let loop := pluginSearchLoop (searchPlugins ps q) q rb
      match loop.1 with
      | some res =>
        { result := Except.ok res, state := cacheSearchResult st q res now,
          calls := loop.2.1, events := [] }
      | none =>
        { result := Except.error (String.append "No plugin found to handle: " q),
          state := st, calls := loop.2.1,
          events := if loop.2.2 then [PEvent.playerError] else [] }

/-- `Player.search` (Player.ts:686-754).  `now` is the clock reading and
`doClean` the `Math.random() < 0.1` draw that triggers the periodic cache
cleanup. -/
def playerSearch (exts : List BaseExtension) (ps : List BasePlugin)
    (st0 : SearchState) (q rb : String) (now : Nat) (doClean : Bool) : SearchRun :=
  playerSearchCore exts ps (if doClean then clearExpiredSearchCache st0 now else st0) q rb now

/-- A key maps to exactly this value: the lookup finds it and every entry
carrying the key holds it (true of every `Map`-like state built by `setA`
from a key-free state). -/
def keyVal {α : Type} (m : List (String × α)) (k : String) (v : α) : Prop :=
  lookupA m k = some v ∧ ∀ e ∈ m, (e.1 == k) = true → e.2 = v

/-- C6 fixture track. -/
def tC6 : Track :=
  { id := "t6", title := "Cached Song", url := "u6", duration := 7,
    requestedBy := "u", source := "prov" }

/-- C6 fixture search result. -/
def resC6 : SearchResult := { tracks := [tC6], playlist := none }

/-- C6 fixture provider: always returns one track. -/
def pC6 : BasePlugin :=
  { name := "prov", canHandle := fun _ => false,
    search := fun _ _ => CallOutcome.returns (some resC6),
    getStream := fun _ => CallOutcome.throws, getFallback := none }

/-- The empty search-cache state. -/
def stEmpty : SearchState := { cache := [], timestamps := [] }

/-- `AudioPlayerStatus` of a sink (@discordjs/voice). -/
inductive AudioStatus where
  | idle
  | buffering
  | playing
  | paused
  | autopaused
  deriving Repr, DecidableEq

/-- Environment of one `interruptWithTTSTrack` call: the registered plugins
(stream resolution goes through `getStreamFromPlugin`, the Player's verbatim
copy of `PluginManager.getStream`), whether a voice connection exists, the
primary sink's status at entry, and whether `Audioresource` (external
resource construction) succeeds. -/
structure TTSEnv where
  plugins : List BasePlugin
  hasConnection : Bool
  primaryStatus : AudioStatus
  resourceOk : Bool

/-- Observable outcome of a TTS interrupt: the events emitted by the call
itself, and whether `resume()` was invoked in the finally block. -/
structure TTSRun where
  events : List PEvent
  resumed : Bool
  deriving Repr, DecidableEq

/-- `Player.interruptWithTTSTrack` (Player.ts:930-986).  `wasPlaying` is
snapshotted first (status playing or buffering); the try block throws when
there is no connection, when stream resolution throws or returns null, or
when resource construction fails; `ttsStart` is emitted only after all of
those succeed; the catch handler emits `playerError`; the finally block
calls `resume()` when `wasPlaying` and always emits `ttsEnd`.  Both
`entersState` waits carry `.catch(() => null)` and cannot throw. -/
def interruptWithTTSTrack (env : TTSEnv) (track : Track) : TTSRun :=
  let wasPlaying := env.primaryStatus == AudioStatus.playing
    || env.primaryStatus == AudioStatus.buffering
  let tryEvents : List PEvent :=
    if !env.hasConnection then [PEvent.playerError]
    else
      match (pmGetStream env.plugins track).1 with
      | Except.error _ => [PEvent.playerError]
      | Except.ok none => [PEvent.playerError]
      | Except.ok (some _) =>
        if !env.resourceOk then [PEvent.playerError]
        else [PEvent.ttsStart]
  { events := tryEvents ++ [PEvent.ttsEnd], resumed := wasPlaying }

/-- Claim C4 as stated, at one input: tts-start is emitted first and tts-end
last regardless of the success or failure of any step, and primary playback
is resumed when it was active before the call. -/
def C4Stated (env : TTSEnv) (track : Track) : Prop :=
  (interruptWithTTSTrack env track).events.head? = some PEvent.ttsStart ∧
  (interruptWithTTSTrack env track).events.getLast? = some PEvent.ttsEnd ∧
  ((env.primaryStatus = AudioStatus.playing ∨ env.primaryStatus = AudioStatus.buffering) →
    (interruptWithTTSTrack env track).resumed = true)

/-- C4 fixture TTS track. -/
def tC4 : Track :=
  { id := "t4", title := "TTS: hello", url := "tts: hello", duration := 3,
    requestedBy := "u", source := "tts" }

/-- C4 counterexample environment: music playing, connection present, but no
plugin can resolve the TTS stream. -/
def envC4 : TTSEnv :=
  { plugins := [], hasConnection := true, primaryStatus := AudioStatus.playing,
    resourceOk := true }

/-- C4 fixture stream. -/
def sC4 : StreamInfo := { stream := true, sid := 4 }

/-- C4 fixture plugin resolving the TTS track. -/
def pC4 : BasePlugin :=
  { name := "tts", canHandle := fun _ => false,
    search := fun _ _ => CallOutcome.throws,
    getStream := fun _ => CallOutcome.returns (some sC4), getFallback := none }

/-- C4 witness environment: everything succeeds. -/
def envC4ok : TTSEnv :=
  { plugins := [pC4], hasConnection := true, primaryStatus := AudioStatus.playing,
    resourceOk := true }

/-- Merge one beforePlay hook result into the threaded request/response
(Player.ts:181-203 / extensions/index.ts:146-168): fields are copied only
when present; `handled` is recorded whatever its value. -/
def applyHookResult (req : PlayRequest) (resp : PlayResponse) (r : PlayResponse) :
    PlayRequest × PlayResponse :=
  let req1 := match r.rquery with
    | some qv => { req with query := qv }
    | none => req
  let resp1 := match r.rquery with
    | some qv => { resp with rquery := some qv }
    | none => resp
  let req2 := match r.rrequestedBy with
    | some rbv => { req1 with requestedBy := some rbv }
    | none => req1
  let resp2 := match r.rrequestedBy with
    | some rbv => { resp1 with rrequestedBy := some rbv }
    | none => resp1
  let resp3 := match r.rtracks with
    | some ts => { resp2 with rtracks := some ts }
    | none => resp2
  let resp4 := match r.risPlaylist with
    | some b => { resp3 with risPlaylist := some b }
    | none => resp3
  let resp5 := match r.rsuccess with
    | some b => { resp4 with rsuccess := some b }
    | none => resp4
  let resp6 := match r.rerror with
    | some msg => { resp5 with rerror := some msg }
    | none => resp5
  let resp7 := match r.handled with
    | some b => { resp6 with handled := some b }
    | none => resp6
  (req2, resp7)

/-- The before-play hook loop (Player.ts:175-208): a throw is caught and the
chain continues; a void result is skipped; `handled: true` stops the chain
after its result is merged. -/
def beforeGo : List BaseExtension → PlayRequest → PlayResponse → PlayRequest × PlayResponse
  | [], req, resp => (req, resp)
  | e :: rest, req, resp =>
    match e.beforePlay with
    | none => beforeGo rest req resp
    | some hook =>
      match hook req with
      | CallOutcome.throws => beforeGo rest req resp
      | CallOutcome.returns none => beforeGo rest req resp
      | CallOutcome.returns (some r) =>
        let m := applyHookResult req resp r
        if r.handled == some true then m else beforeGo rest m.1 m.2

/-- The empty `ExtensionPlayResponse` the chain starts from. -/
def emptyResponse : PlayResponse :=
  { handled := none, rquery := none, rrequestedBy := none, rtracks := none,
    risPlaylist := none, rsuccess := none, rerror := none }

/-- `Player.runBeforePlayHooks` (Player.ts:170-210), identical to
`ExtensionManager.BeforePlayHooks`. -/
def runBeforePlayHooks (exts : List BaseExtension) (initial : PlayRequest) :
    PlayRequest × PlayResponse :=
  beforeGo exts initial emptyResponse

/-- JS `x || "Unknown"` on an optional string (the empty string is falsy). -/
def jsOrStr (o : Option String) (d : String) : String :=
  match o with
  | some s => if s == "" then d else s
  | none => d

/-- `isTTS` (Player.ts:857-864): the track's source contains "tts"
case-insensitively. -/
def isTTSTrack (t : Track) : Bool := jsIncludes (jsToLower t.source) "tts"

/-- `queryLooksTTS` (Player.ts:866-867): a string query whose trimmed,
lowercased form starts with "tts". -/
def queryLooksTTS : Sum String Track → Bool
  | Sum.inl s => jsStartsWith (jsToLower (jsTrim s)) "tts"
  | Sum.inr _ => false

/-- Environment of one `Player.play` call.  `ttsInterrupt` is
`options.tts.interrupt !== false`; `playNextOk`/`playNextEvents` abstract
the sink-driven `playNext()` (it never throws: every failure recurses after
emitting its own events). -/
structure PlayEnv where
  extensions : List BaseExtension
  plugins : List BasePlugin
  ttsInterrupt : Bool
  hasConnection : Bool
  primaryStatus : AudioStatus
  resourceOk : Bool
  playNextOk : Bool
  playNextEvents : List PEvent

/-- The session state a play call reads and writes. -/
structure PlayerSt where
  searchState : SearchState
  upcoming : List Track
  isPlaying : Bool

/-- Observable outcome of one `Player.play` call.  The result type is an
`Except` so that the claim "play rejects" is statable; the embedding shows
the error case is never produced. -/
structure PlayRun where
  result : Except String Bool
  state : PlayerSt
  events : List PEvent

/-- The TTS environment a play call hands to the interrupt flow. -/
def ttsEnvOf (env : PlayEnv) : TTSEnv :=
  { plugins := env.plugins, hasConnection := env.hasConnection,
    primaryStatus := env.primaryStatus, resourceOk := env.resourceOk }

/-- Steps of `Player.play` after tracks are resolved (Player.ts:852-905):
an empty track list throws "No tracks found", reaching play's catch handler
(after-play hooks, player-error event, resolve false); a single TTS-looking
track diverts into the TTS interrupt (which never throws) and resolves
true; otherwise enqueue (single track or playlist batch) with the matching
queue event and, when nothing is playing, run the abstracted non-throwing
`playNext`.  `pre` carries events already emitted earlier in the call. -/
def playResolved (env : PlayEnv) (st : PlayerSt) (req : PlayRequest)
    (tracksToAdd : List Track) (isPlaylist : Bool) (pre : List PEvent) : PlayRun :=
  match tracksToAdd with
  | [] => { result := Except.ok false, state := st, events := pre ++ [PEvent.playerError] }
  | t0 :: rest =>
    if !isPlaylist && env.ttsInterrupt && (isTTSTrack t0 || queryLooksTTS req.query) then
      let tr := interruptWithTTSTrack (ttsEnvOf env) t0
      { result := Except.ok true, state := st, events := pre ++ tr.events }
    else
      let st2 := if isPlaylist then { st with upcoming := st.upcoming ++ (t0 :: rest) }
        else { st with upcoming := st.upcoming ++ [t0] }
      let addEv := if isPlaylist then PEvent.queueAddList else PEvent.queueAdd
      let started := if !st2.isPlaying then env.playNextOk else true
      let evs := if !st2.isPlaying then env.playNextEvents else []
      { result := Except.ok started, state := st2, events := pre ++ [addEv] ++ evs }

/-- Line 815-817: `if (effectiveRequest.requestedBy === undefined)
effectiveRequest.requestedBy = requestedBy`. -/
def fillRequestedBy (req0 : PlayRequest) (rb : Option String) : PlayRequest :=
  { req0 with requestedBy := match req0.requestedBy with
      | none => rb
      | some x => some x }

/-- `Player.play` for a textual query after the before-play hooks
(Player.ts:810-918), with the hook outcome passed explicitly.
Handled-with-no-tracks short-circuits through the after-play hooks,
emitting player-error when the hooks reported an error, and resolves
`success ?? true`.  A query rewritten to a Track by a hook is played
directly.  A failed search is caught by play's catch handler: after-play
hooks run with success false, player-error is emitted, and play resolves
false — it does not rethrow. -/
def playPhase (env : PlayEnv) (st : PlayerSt) (rb : Option String)
    (now : Nat) (cl : Bool) (hk : PlayRequest × PlayResponse) : PlayRun :=
  let req0 := hk.1
  let resp := hk.2
  let req : PlayRequest := fillRequestedBy req0 rb
  if resp.handled == some true && (resp.rtracks.getD []).isEmpty then
    { result := Except.ok (resp.rsuccess.getD true), state := st,
      events := if resp.rerror.isSome then [PEvent.playerError] else [] }
  else
    match resp.rtracks with
    | some (t1 :: ts) =>
      playResolved env st req (t1 :: ts)
        (resp.risPlaylist.getD (decide ((t1 :: ts).length > 1))) []
    | _ =>
      match req.query with
      | Sum.inl qs =>
        let sr := playerSearch env.extensions env.plugins st.searchState qs
          (jsOrStr req.requestedBy "Unknown") now cl
        match sr.result with
        | Except.error _ =>
          { result := Except.ok false, state := { st with searchState := sr.state },
            events := sr.events ++ [PEvent.playerError] }
        | Except.ok res =>
          playResolved env { st with searchState := sr.state } req res.tracks
            res.playlist.isSome sr.events
      | Sum.inr tr => playResolved env st req [tr] false []

/-- `Player.play(query, requestedBy)` for a string query (Player.ts:770-919;
the null/Track/SearchResult overloads of lines 788-809 take other branches
and are not involved in textual resolution). -/
def playerPlayStr (env : PlayEnv) (st : PlayerSt) (q : String) (rb : Option String)
    (now : Nat) (cl : Bool) : PlayRun :=
  playPhase env st rb now cl
    (runBeforePlayHooks env.extensions { query := Sum.inl q, requestedBy := rb })

/-- Claim C3 as stated, at one input: if textual resolution fails then both
`search` and `play` surface a thrown error and both emit player-error. -/
def C3Stated (env : PlayEnv) (st : PlayerSt) (q : String) (rb : Option String)
    (now : Nat) (cl : Bool) : Prop :=
  (∃ m, (playerSearch env.extensions env.plugins st.searchState q
      (jsOrStr rb "Unknown") now cl).result = Except.error m) →
  (PEvent.playerError ∈ (playerSearch env.extensions env.plugins st.searchState q
      (jsOrStr rb "Unknown") now cl).events ∧
    (∃ m, (playerPlayStr env st q rb now cl).result = Except.error m))

/-- C3 fixture plugin: resolves with an empty track list (no throw). -/
def pC3e : BasePlugin :=
  { name := "pe", canHandle := fun _ => false,
    search := fun _ _ => CallOutcome.returns (some { tracks := [], playlist := none }),
    getStream := fun _ => CallOutcome.throws, getFallback := none }

/-- C3 counterexample environment. -/
def envC3 : PlayEnv :=
  { extensions := [], plugins := [pC3e], ttsInterrupt := true, hasConnection := true,
    primaryStatus := AudioStatus.idle, resourceOk := true, playNextOk := true,
    playNextEvents := [] }

/-- C3 fixture session state. -/
def pstC3 : PlayerSt := { searchState := stEmpty, upcoming := [], isPlaying := false }

/-- Value fields of an `ExtensionAfterPlayPayload` (types/index.ts:316-323);
the error is modelled by its presence. -/
structure AfterPayloadObj where
  success : Bool
  query : Sum String Track
  requestedBy : Option String
  tracks : Option (List Track)
  isPlaylist : Bool
  hasError : Bool
  deriving Repr, DecidableEq

/-- Mutations an after-play hook could attempt through the payload reference
it receives: writes to the payload's own fields, and writes into / pushes
onto its tracks array. -/
inductive PayloadMut where
  | setSuccess : Bool → PayloadMut
  | setQuery : Sum String Track → PayloadMut
  | setRequestedBy : Option String → PayloadMut
  | setTracksField : Option (List Track) → PayloadMut
  | setIsPlaylist : Bool → PayloadMut
  | setHasError : Bool → PayloadMut
  | setTrackAt : Nat → Track → PayloadMut
  | pushTrack : Track → PayloadMut
  deriving Repr, DecidableEq

/-- A payload object together with the freeze state of the object itself and
of its tracks array. -/
structure PayloadCell where
  value : AfterPayloadObj
  objFrozen : Bool
  tracksFrozen : Bool
  deriving Repr, DecidableEq

/-- JS mutation semantics on the payload: a property write on a frozen
object is silently ignored (sloppy mode); an index write on a frozen array
is ignored, and a `push` throws a TypeError inside the hook — caught by the
per-extension handler — without modifying the array.  Either way a frozen
target is unchanged. -/
def applyMut (c : PayloadCell) (m : PayloadMut) : PayloadCell :=
  match m with
  | PayloadMut.setSuccess b =>
    if c.objFrozen then c else { c with value := { c.value with success := b } }
  | PayloadMut.setQuery qv =>
    if c.objFrozen then c else { c with value := { c.value with query := qv } }
  | PayloadMut.setRequestedBy r =>
    if c.objFrozen then c else { c with value := { c.value with requestedBy := r } }
  | PayloadMut.setTracksField v =>
    if c.objFrozen then c else { c with value := { c.value with tracks := v } }
  | PayloadMut.setIsPlaylist b =>
    if c.objFrozen then c else { c with value := { c.value with isPlaylist := b } }
  | PayloadMut.setHasError b =>
    if c.objFrozen then c else { c with value := { c.value with hasError := b } }
  | PayloadMut.setTrackAt i t =>
    if c.tracksFrozen then c
    else { c with value := { c.value with tracks := c.value.tracks.map (fun l => l.set i t) } }
  | PayloadMut.pushTrack t =>
    if c.tracksFrozen then c
    else { c with value := { c.value with tracks := c.value.tracks.map (fun l => l ++ [t]) } }

/-- The payload preparation of `runAfterPlayHooks` (Player.ts:214-218 /
extensions/index.ts:179-183): copy the tracks array, freeze the copy when
it exists (`if (safeTracks) Object.freeze(safeTracks)`), spread the payload
into a fresh object carrying the copy, and freeze that object — all before
any hook runs. -/
def freezeAfterPayload (p : AfterPayloadObj) : PayloadCell :=
  { value := p, objFrozen := true, tracksFrozen := p.tracks.isSome }

/-- The dispatch loop of `runAfterPlayHooks` (Player.ts:219-227): every hook
receives the same `immutablePayload` reference; a hook is modelled by the
mutations it attempts on that reference, applied under the freeze
semantics; the value each hook observes at its invocation is recorded. -/
def afterGo : List (AfterPayloadObj → List PayloadMut) → PayloadCell →
    PayloadCell × List AfterPayloadObj
  | [], c => (c, [])
  | h :: rest, c =>
    let c1 := (h c.value).foldl applyMut c
    let r := afterGo rest c1
    (r.1, c.value :: r.2)

/-- `Player.runAfterPlayHooks` (Player.ts:212-228): freeze, then dispatch. -/
def runAfterPlayHooksM (hooks : List (AfterPayloadObj → List PayloadMut))
    (p : AfterPayloadObj) : PayloadCell × List AfterPayloadObj :=
  afterGo hooks (freezeAfterPayload p)

/-- `AudioFilter` (the filter-catalog module). -/
structure AudioFilter where
  name : String
  ffmpegFilter : String
  description : String
  category : Option String
  deriving Repr, DecidableEq

/-- `PREDEFINED_FILTERS` (the filter-catalog module): the full predefined
catalog as an ordered record; JS object access is exact-key, modelled by
`lookupA`. -/
def PREDEFINED_FILTERS : List (String × AudioFilter) :=
  [ ("bassboost",
      { name := "bassboost", ffmpegFilter := "bass=g=10:f=110:w=0.5",
        description := "Bass Boost", category := some "eq" }),
    ("nightcore",
      { name := "nightcore", ffmpegFilter := "aresample=48000,asetrate=48000*1.5",
        description := "Nightcore", category := some "speed" }),
    ("karaoke",
      { name := "karaoke", ffmpegFilter := "stereotools=mlev=0.1",
        description := "Karaoke", category := some "vocal" }),
    ("lofi",
      { name := "lofi",
        ffmpegFilter := "aresample=48000,asetrate=48000*0.9,extrastereo=m=2.5:c=disabled",
        description := "Lo-fi", category := some "speed" }),
    ("8D",
      { name := "8D", ffmpegFilter := "apulsator=hz=0.08",
        description := "8D Effect", category := some "effect" }),
    ("vaporwave",
      { name := "vaporwave",
        ffmpegFilter := "highpass=f=50, lowpass=f=2750, aresample=48000, asetrate=48000*0.85,bass=g=5:f=110:w=0.6, compand=attacks=0:points=-80/-169|-54/-80|-49.5/-64.6|-41.1/-41.1|-25.8/-15|-10.8/-4.5|0/0|20/8.3",
        description := "Vaporwave", category := some "speed" }),
    ("bathroom",
      { name := "bathroom",
        ffmpegFilter := "highpass=f=10, lowpass=f=400, aresample=44100, asetrate=44100*0.85,bass=g=4:f=110:w=0.6, alimiter=1, compand=attacks=0:points=-80/-169|-54/-80|-49.5/-64.6|-41.1/-41.1|-25.8/-15|-10.8/-4.5|0/0|20/8.3",
        description := "Bathroom", category := some "speed" }),
    ("expander",
      { name := "expander",
        ffmpegFilter := "compand=attacks=0:points=-80/-169|-54/-80|-49.5/-64.6|-41.1/-41.1|-25.8/-15|-10.8/-4.5|0/0|20/8.3",
        description := "Expander", category := some "speed" }),
    ("reverse",
      { name := "reverse", ffmpegFilter := "areverse",
        description := "Reverse", category := some "effect" }),
    ("echo",
      { name := "echo", ffmpegFilter := "aecho=0.8:0.88:60:0.4",
        description := "Echo", category := some "effect" }),
    ("trebleboost",
      { name := "trebleboost", ffmpegFilter := "treble=g=10:f=3000:w=0.5",
        description := "Treble Boost", category := some "eq" }),
    ("chorus",
      { name := "chorus", ffmpegFilter := "chorus=0.5:0.9:50:0.4:0.25:2",
        description := "Chorus", category := some "effect" }),
    ("flanger",
      { name := "flanger", ffmpegFilter := "flanger=delay=10:depth=2:regen=0:width=71:speed=0.5",
        description := "Flanger", category := some "effect" }),
    ("phaser",
      { name := "phaser",
        ffmpegFilter := "aphaser=in_gain=0.4:out_gain=0.74:delay=3.0:decay=0.4:speed=0.5",
        description := "Phaser", category := some "effect" }),
    ("tremolo",
      { name := "tremolo", ffmpegFilter := "tremolo=f=4.0:d=0.5",
        description := "Tremolo", category := some "effect" }),
    ("vibrato",
      { name := "vibrato", ffmpegFilter := "vibrato=f=5.5:d=0.5",
        description := "Vibrato", category := some "effect" }),
    ("normalize",
      { name := "normalize", ffmpegFilter := "loudnorm",
        description := "Normalize", category := some "volume" }),
    ("compressor",
      { name := "compressor",
        ffmpegFilter := "compand=points=-80/-105|-62/-80|-15.4/-15.4|0/-12|20/-7.6",
        description := "Compressor", category := some "dynamics" }),
    ("limiter",
      { name := "limiter", ffmpegFilter := "alimiter=level_in=1:level_out=0.8:limit=0.9",
        description := "Limiter", category := some "dynamics" }),
    ("gate",
      { name := "gate", ffmpegFilter := "agate=threshold=0.01:ratio=2:attack=1:release=100",
        description := "Gate", category := some "dynamics" }),
    ("lowpass",
      { name := "lowpass", ffmpegFilter := "lowpass=f=3000",
        description := "Lowpass", category := some "filter" }),
    ("highpass",
      { name := "highpass", ffmpegFilter := "highpass=f=200",
        description := "Highpass", category := some "filter" }),
    ("bandpass",
      { name := "bandpass", ffmpegFilter := "bandpass=f=1000:csg=1",
        description := "Bandpass", category := some "filter" }),
    ("allpass",
      { name := "allpass", ffmpegFilter := "allpass=f=1000:width_type=h:width=200",
        description := "Allpass", category := some "filter" }),
    ("equalizer",
      { name := "equalizer", ffmpegFilter := "equalizer=f=1000:width_type=h:width=200:g=5",
        description := "Equalizer", category := some "eq" }),
    ("reverb",
      { name := "reverb", ffmpegFilter := "aecho=0.8:0.88:60:0.4",
        description := "Reverb", category := some "effect" }),
    ("delay",
      { name := "delay", ffmpegFilter := "aecho=0.8:0.9:1000:0.3",
        description := "Delay", category := some "effect" }),
    ("distortion",
      { name := "distortion", ffmpegFilter := "acrusher=bits=8:mode=log:aa=1",
        description := "Distortion", category := some "effect" }),
    ("bitcrusher",
      { name := "bitcrusher", ffmpegFilter := "acrusher=bits=8:mode=log:aa=1",
        description := "Bitcrusher", category := some "effect" }),
    ("robot",
      { name := "robot",
        ffmpegFilter := "afftfilt=real=\x27hypot(re,im)*sin(0)\x27:imag=\x27hypot(re,im)*cos(0)\x27:win_size=512:overlap=0.75",
        description := "Robot", category := some "vocal" }),
    ("slow",
      { name := "slow", ffmpegFilter := "atempo=0.5",
        description := "Slow", category := some "speed" }),
    ("fast",
      { name := "fast", ffmpegFilter := "atempo=2.0",
        description := "Fast", category := some "speed" }),
    ("mono",
      { name := "mono", ffmpegFilter := "pan=mono|c0=0.5*c0+0.5*c1",
        description := "Mono", category := some "channel" }),
    ("stereo",
      { name := "stereo",
        ffmpegFilter := "pan=stereo|c0<c0+c1+c2+c3+c4+c5|c1<c0+c1+c2+c3+c4+c5",
        description := "Stereo", category := some "channel" }),
    ("haas",
      { name := "haas", ffmpegFilter := "haas",
        description := "Haas", category := some "dynamics" }),
    ("fadein",
      { name := "fadein", ffmpegFilter := "afade=t=in:ss=0:d=5",
        description := "Fadein", category := some "effect" }) ]

/-- The duplicate-check-and-append part of `Player.applyFilter`
(Player.ts:1583-1593): a filter already active by name fails and leaves the
list unchanged; otherwise it is appended and the call succeeds. -/
def applyFilterCore (active : List AudioFilter) (af : AudioFilter) :
    Bool × List AudioFilter :=
  if active.any (fun f => f.name == af.name) then (false, active)
  else (true, active ++ [af])

/-- `Player.applyFilter` (Player.ts:1567-1594) acting on the active-filter
list: a string argument names a predefined filter (an unknown name fails);
an `AudioFilter` argument is used directly. -/
def applyFilter (active : List AudioFilter) (filter : Sum String AudioFilter) :
    Bool × List AudioFilter :=
  match filter with
  | Sum.inl name =>
    match lookupA PREDEFINED_FILTERS name with
    | none => (false, active)
    | some af => applyFilterCore active af
  | Sum.inr af => applyFilterCore active af

/-- Player volume state: the stored `volume` and the current resource's
VolumeTransformer value when a resource exists.  JS numbers are modelled by
rationals. -/
structure VolSt where
  volume : ℚ
  resourceVolume : Option ℚ
  deriving Repr, DecidableEq

/-- One step of the 10-step volume ramp (Player.ts:1354):
`start + ((target - start) * currentStep) / steps`. -/
def rampStep (start target step steps : ℚ) : ℚ :=
  start + (target - start) * step / steps

/-- `Player.setVolume` (Player.ts:1336-1365): a value outside [0,200] is
rejected with no state change; otherwise the stored volume becomes `v` and,
when a resource exists, a 10-step linear ramp drives the resource volume to
`v / 100` — the state records the ramp's terminal value (step 10 of 10). -/
def setVolume (st : VolSt) (v : ℚ) : Bool × VolSt :=
  if v < 0 ∨ 200 < v then (false, st)
  else
    (true,
      { volume := v,
        resourceVolume := st.resourceVolume.map (fun start => rampStep start (v / 100) 10 10) })

/- ## Lemmas about the plugin fallback chain -/

theorem skipCheck_false (p : BasePlugin) : skipCheck p = false := by
  simp [skipCheck, hasGetStreamFn]

theorem usableO_orElse {v : Option StreamInfo} (h : usableO v = true) :
    ∀ f : Unit → Option StreamInfo, v.orElse f = v := by
  intro f
  cases v with
  | none => simp [usableO] at h
  | some s => rfl

theorem tryPlugins_fst (ps : List BasePlugin) (t : Track) :
    (tryPlugins ps t).1 = firstLoopYield ps t := by
  induction ps with
  | nil => rfl
  | cons p rest ih =>
    unfold tryPlugins firstLoopYield
    rw [skipCheck_false]
    simp only [Bool.false_eq_true, if_false]
    rcases hg : p.getStream t with _ | v
    · simp [loopYield, hg, ih]
    · rcases hu : usableO v with _ | _
      · simp only [hu, Bool.false_eq_true, if_false]
        rcases hf : p.getFallback with _ | fb
        · simp [loopYield, hg, hu, hf, ih]
        · rcases hw : fb t with _ | w
          · simp [loopYield, hg, hu, hf, hw, ih]
          · rcases hu2 : usableO w with _ | _
            · simp [loopYield, hg, hu, hf, hw, hu2, ih]
            · simp [loopYield, hg, hu, hf, hw, hu2, usableO_orElse hu2]
      · simp [loopYield, hg, hu, usableO_orElse hu]

theorem loopYield_eq_none (p : BasePlugin) (t : Track)
    (h1 : primaryUsable p t = false) (h2 : fallbackUsable p t = false) :
    loopYield p t = none := by
  unfold primaryUsable at h1
  unfold fallbackUsable at h2
  unfold loopYield
  rcases hg : p.getStream t with _ | v
  · rfl
  · simp only [hg] at h1
    simp only [h1, Bool.false_eq_true, if_false]
    rcases hf : p.getFallback with _ | fb
    · simp [hf]
    · simp only [hf] at h2
      rcases hw : fb t with _ | w
      · simp [hf, hw]
      · simp only [hw] at h2
        simp [hf, hw, h2]

theorem firstLoopYield_none (ps : List BasePlugin) (t : Track)
    (hall : ∀ p ∈ ps, primaryUsable p t = false ∧ fallbackUsable p t = false) :
    firstLoopYield ps t = none := by
  induction ps with
  | nil => rfl
  | cons p rest ih =>
    have hp := hall p (List.mem_cons_self p rest)
    have hr : ∀ q ∈ rest, primaryUsable q t = false ∧ fallbackUsable q t = false :=
      fun q hq => hall q (List.mem_cons_of_mem p hq)
    unfold firstLoopYield
    rw [loopYield_eq_none p t hp.1 hp.2]
    simpa using ih hr

theorem pmSelect_mem (ps : List BasePlugin) (t : Track) (d : BasePlugin)
    (h : pmSelect ps t = some d) : d ∈ ps := by
  unfold pmSelect at h
  rcases hg : pmGet ps t.source with _ | p
  · rw [hg] at h
    simp only [Option.orElse, Option.none_orElse] at h
    exact List.mem_of_find?_eq_some h
  · rw [hg] at h
    simp only [Option.orElse, Option.some_orElse] at h
    cases h
    exact List.mem_of_find?_eq_some hg

theorem pmFallbackPhase_of_yield (ps : List BasePlugin) (t : Track) (s : StreamInfo)
    (l : List Attempt) (h : firstLoopYield ps t = some s) :
    (pmFallbackPhase ps t l).1 = Except.ok (some s) := by
  unfold pmFallbackPhase
  have := tryPlugins_fst ps t
  rw [h] at this
  simp [this]

theorem pmFallbackPhase_of_none (ps : List BasePlugin) (t : Track)
    (l : List Attempt) (h : firstLoopYield ps t = none) :
    (pmFallbackPhase ps t l).1 =
      Except.error (String.append "All getFallback attempts failed for track: " t.title) := by
  unfold pmFallbackPhase
  have := tryPlugins_fst ps t
  rw [h] at this
  simp [this]

/-- Claim C1 (counterexample): with providers p1 (declared, `getStream`
rejects), p2 (`getStream` rejects, `getFallback` usable) and p3 (`getStream`
usable), the first provider whose `getStream` or `getFallback` yields a
usable stream is p2, but `PluginManager.getStream` returns p3's stream: when
a provider's `getStream` rejects, the loop never consults its `getFallback`. -/
theorem c1_getStream_first_yield_cex : ¬ C1Stated psC1 tC1 := by
  intro h
  have hmem : pC1b ∈ psC1 := by
    unfold psC1
    exact List.mem_cons_of_mem _ (List.mem_cons_self _ _)
  have hres := h pC1a rfl rfl ⟨pC1b, hmem, by decide, rfl⟩ sC1a rfl
  have hact : (pmGetStream psC1 tC1).1 = Except.ok (some sC1b) := rfl
  rw [hact] at hres
  simp [sC1a, sC1b] at hres

/-- Claim C1 (amended): when the declared provider's `getStream` rejects,
times out or returns no usable stream, the manager iterates all registered
providers in registration order and returns the first stream yielded under
the code's discipline: a provider's `getStream` result if usable, else —
only when its `getStream` resolved without throwing — its `getFallback`
result if usable.  The failed declared provider's error is not surfaced. -/
theorem c1_getStream_fallback_order (ps : List BasePlugin) (t : Track)
    (d : BasePlugin) (s : StreamInfo)
    (hsel : pmSelect ps t = some d)
    (hfail : primaryUsable d t = false)
    (hfirst : firstLoopYield ps t = some s) :
    (pmGetStream ps t).1 = Except.ok (some s) := by
  unfold pmGetStream
  unfold primaryUsable at hfail
  simp only [hsel]
  rcases hg : d.getStream t with _ | v
  · simp only [hg]
    exact pmFallbackPhase_of_yield ps t s _ hfirst
  · simp only [hg] at hfail
    simp only [hg, hfail, Bool.false_eq_true, if_false]
    exact pmFallbackPhase_of_yield ps t s _ hfirst

/-- Claim C1 witness: on the counterexample registry the amended theorem
applies and produces p3's stream. -/
theorem c1_getStream_fallback_order_witness :
    (pmGetStream psC1 tC1).1 = Except.ok (some sC1b) :=
  c1_getStream_fallback_order psC1 tC1 pC1a sC1b rfl rfl rfl

/-- Claim C2: when some provider matches the track but every registered
provider's `getStream` and `getFallback` fail to yield a usable stream,
`PluginManager.getStream` rejects with the "All getFallback attempts failed"
error naming the track's title, and no StreamInfo is returned. -/
theorem c2_getStream_all_fail_names_track (ps : List BasePlugin) (t : Track)
    (d : BasePlugin)
    (hsel : pmSelect ps t = some d)
    (hall : ∀ p ∈ ps, primaryUsable p t = false ∧ fallbackUsable p t = false) :
    (pmGetStream ps t).1 =
      Except.error (String.append "All getFallback attempts failed for track: " t.title) := by
  have hnone := firstLoopYield_none ps t hall
  have hd := (hall d (pmSelect_mem ps t d hsel)).1
  unfold primaryUsable at hd
  unfold pmGetStream
  simp only [hsel]
  rcases hg : d.getStream t with _ | v
  · simp only [hg]
    exact pmFallbackPhase_of_none ps t _ hnone
  · simp only [hg] at hd
    simp only [hg, hd, Bool.false_eq_true, if_false]
    exact pmFallbackPhase_of_none ps t _ hnone

/-- Claim C2 witness: a single always-rejecting provider matched by source
name produces the exhaustion error naming the track. -/
theorem c2_getStream_all_fail_names_track_witness :
    (pmGetStream psC2 tC2).1 =
      Except.error (String.append "All getFallback attempts failed for track: " tC2.title) := by
  have h := c2_getStream_all_fail_names_track psC2 tC2 pC2 rfl
    (by
      intro p hp
      rcases List.mem_singleton.mp hp with rfl
      exact ⟨rfl, rfl⟩)
  exact h

/-- Claim C10: when no registered plugin matches the track's source name and
none accepts its URL, `PluginManager.getStream` returns null without
throwing and without invoking any plugin's `getStream` or `getFallback`
(empty invocation log); conversely the exhaustion error can only arise when
a plugin was matched. -/
theorem c10_getStream_no_plugin_null (ps : List BasePlugin) (t : Track) :
    (pmSelect ps t = none → pmGetStream ps t = (Except.ok none, [])) ∧
    (∀ e, (pmGetStream ps t).1 = Except.error e → pmSelect ps t ≠ none) := by
  constructor
  · intro h
    unfold pmGetStream
    rw [h]
  · intro e he hn
    unfold pmGetStream at he
    rw [hn] at he
    simp at he

/-- Claim C10 witness: a registry with one provider that matches neither the
source "nowhere" nor the URL "zzz" returns null with an empty call log. -/
theorem c10_getStream_no_plugin_null_witness :
    pmGetStream psC2 tC10 = (Except.ok none, []) :=
  (c10_getStream_no_plugin_null psC2 tC10).1 rfl

/- ## Extension hook chains -/

theorem emProvideSearch_fst (exts : List BaseExtension) (q rb : String) :
    (emProvideSearch exts q rb).1 = firstSearchAccept exts q rb := by
  induction exts with
  | nil => rfl
  | cons e rest ih =>
    unfold emProvideSearch firstSearchAccept
    rcases hh : e.provideSearch with _ | hook
    · simp [searchHookAccept, hh, ih]
    · rcases hr : hook q rb with _ | v
      · simp [searchHookAccept, hh, hr, ih]
      · rcases v with _ | res
        · simp [searchHookAccept, hh, hr, ih]
        · rcases he : res.tracks.isEmpty with _ | _
          · simp [searchHookAccept, hh, hr, he]
          · simp [searchHookAccept, hh, hr, he, ih]

theorem emProvideStream_fst (exts : List BaseExtension) (t : Track) :
    (emProvideStream exts t).1 = firstStreamAccept exts t := by
  induction exts with
  | nil => rfl
  | cons e rest ih =>
    unfold emProvideStream firstStreamAccept
    rcases hh : e.provideStream with _ | hook
    · simp [streamHookAccept, hh, ih]
    · rcases hr : hook t with _ | v
      · simp [streamHookAccept, hh, hr, ih]
      · rcases v with _ | s
        · simp [streamHookAccept, hh, hr, ih]
        · rcases he : s.stream with _ | _
          · simp [streamHookAccept, hh, hr, he, ih]
          · simp [streamHookAccept, hh, hr, he]

theorem emProvideSearch_append (pre post : List BaseExtension) (q rb : String)
    (h : (firstSearchAccept pre q rb).isSome = true) :
    emProvideSearch (pre ++ post) q rb = emProvideSearch pre q rb := by
  induction pre with
  | nil => simp [firstSearchAccept] at h
  | cons e rest ih =>
    rw [List.cons_append]
    unfold emProvideSearch
    unfold firstSearchAccept at h
    rcases hh : e.provideSearch with _ | hook
    · simp only [searchHookAccept, hh, Option.none_orElse] at h
      simp only [hh]
      exact ih h
    · rcases hr : hook q rb with _ | v
      · simp only [searchHookAccept, hh, hr, Option.none_orElse] at h
        simp [hh, hr, ih h]
      · rcases v with _ | res
        · simp only [searchHookAccept, hh, hr, Option.none_orElse] at h
          simp [hh, hr, ih h]
        · rcases he : res.tracks.isEmpty with _ | _
          · simp [hh, hr, he]
          · simp only [searchHookAccept, hh, hr, he, if_true, Option.none_orElse] at h
            simp [hh, hr, he, ih h]

theorem emProvideStream_append (pre post : List BaseExtension) (t : Track)
    (h : (firstStreamAccept pre t).isSome = true) :
    emProvideStream (pre ++ post) t = emProvideStream pre t := by
  induction pre with
  | nil => simp [firstStreamAccept] at h
  | cons e rest ih =>
    rw [List.cons_append]
    unfold emProvideStream
    unfold firstStreamAccept at h
    rcases hh : e.provideStream with _ | hook
    · simp only [streamHookAccept, hh, Option.none_orElse] at h
      simp only [hh]
      exact ih h
    · rcases hr : hook t with _ | v
      · simp only [streamHookAccept, hh, hr, Option.none_orElse] at h
        simp [hh, hr, ih h]
      · rcases v with _ | s
        · simp only [streamHookAccept, hh, hr, Option.none_orElse] at h
          simp [hh, hr, ih h]
        · rcases he : s.stream with _ | _
          · simp only [streamHookAccept, hh, hr, he, if_false, Bool.false_eq_true,
              Option.none_orElse] at h
            simp [hh, hr, he, ih h]
          · simp [hh, hr, he]

/-- Claim C5: the `provideSearch`/`provideStream` chains run extensions in
registration order and return the first extension's non-empty result (a
non-empty `tracks` array for search, a present usable stream for stream);
throwing hooks are caught and skipped, hook-less extensions are skipped, no
exception propagates (the chain is total), and once some extension in a
prefix yields, extensions registered after it are never invoked: the whole
run — result and invocation log — is unchanged by anything appended after
the winning extension. -/
theorem c5_extension_chain_first_match (exts pre post : List BaseExtension)
    (q rb : String) (t : Track) :
    ((emProvideSearch exts q rb).1 = firstSearchAccept exts q rb) ∧
    ((emProvideStream exts t).1 = firstStreamAccept exts t) ∧
    ((firstSearchAccept pre q rb).isSome = true →
      emProvideSearch (pre ++ post) q rb = emProvideSearch pre q rb) ∧
    ((firstStreamAccept pre t).isSome = true →
      emProvideStream (pre ++ post) t = emProvideStream pre t) :=
  ⟨emProvideSearch_fst exts q rb, emProvideStream_fst exts t,
    emProvideSearch_append pre post q rb, emProvideStream_append pre post t⟩

/-- Claim C5 witness: with a throwing first extension, a yielding second and
a would-yield third, the chain result is the second extension's and the
third extension is never consulted. -/
theorem c5_extension_chain_first_match_witness :
    (firstSearchAccept [eC5a, eC5b] "q" "u").isSome = true ∧
    emProvideSearch [eC5a, eC5b, eC5c] "q" "u" = emProvideSearch [eC5a, eC5b] "q" "u" ∧
    (emProvideSearch [eC5a, eC5b, eC5c] "q" "u").1 = firstSearchAccept [eC5a, eC5b, eC5c] "q" "u" ∧
    (emProvideSearch [eC5a, eC5b, eC5c] "q" "u").2 = ["e1", "e2"] := by
  have h := c5_extension_chain_first_match [eC5a, eC5b, eC5c] [eC5a, eC5b] [eC5c] "q" "u" tC5
  exact ⟨rfl, h.2.2.1 rfl, h.1, rfl⟩

/- ## Search cache -/

theorem lookupA_setA_self {α : Type} (m : List (String × α)) (k : String) (v : α) :
    lookupA (setA m k v) k = some v := by
  induction m with
  | nil => simp [setA, lookupA]
  | cons e rest ih =>
    unfold setA
    rcases he : (e.1 == k) with _ | _
    · simp [lookupA, he, ih]
    · simp [lookupA]

theorem keyVal_setA {α : Type} (m : List (String × α)) (k : String) (v : α)
    (h : lookupA m k = none) : keyVal (setA m k v) k v := by
  induction m with
  | nil =>
    refine ⟨by simp [setA, lookupA], ?_⟩
    intro e he hk
    simp only [setA, List.mem_singleton] at he
    rw [he]
  | cons e rest ih =>
    unfold lookupA at h
    rcases he : (e.1 == k) with _ | _
    · rw [he] at h
      simp only [Bool.false_eq_true, if_false] at h
      have ihh := ih h
      refine ⟨by simp [setA, he, lookupA, ihh.1], ?_⟩
      intro x hx hk
      simp only [setA, he, Bool.false_eq_true, if_false] at hx
      rcases List.mem_cons.mp hx with rfl | hx2
      · rw [hk] at he
        exact absurd he (by simp)
      · exact ihh.2 x hx2 hk
    · simp [he] at h

theorem lookupA_none_filter {α : Type} (m : List (String × α)) (p : String × α → Bool)
    (k : String) (h : lookupA m k = none) : lookupA (m.filter p) k = none := by
  induction m with
  | nil => rfl
  | cons e rest ih =>
    unfold lookupA at h
    rcases he : (e.1 == k) with _ | _
    · rw [he] at h
      simp only [Bool.false_eq_true, if_false] at h
      rcases hp : p e with _ | _
      · simp [List.filter_cons, hp, ih h]
      · simp [List.filter_cons, hp, lookupA, he, ih h]
    · simp [he] at h

theorem lookupA_filter_some {α : Type} (m : List (String × α)) (p : String × α → Bool)
    (k : String) (v : α) (hp : p (k, v) = true) :
    keyVal m k v → lookupA (m.filter p) k = some v := by
  induction m with
  | nil =>
    intro h
    obtain ⟨hl, _⟩ := h
    simp [lookupA] at hl
  | cons e rest ih =>
    intro h
    obtain ⟨hl, hall⟩ := h
    unfold lookupA at hl
    rcases he : (e.1 == k) with _ | _
    · rw [he] at hl
      simp only [Bool.false_eq_true, if_false] at hl
      have hrest : keyVal rest k v :=
        ⟨hl, fun x hx => hall x (List.mem_cons_of_mem e hx)⟩
      rcases hp2 : p e with _ | _
      · simpa [List.filter_cons, hp2] using ih hrest
      · simp only [List.filter_cons, hp2, if_true]
        simpa [lookupA, he] using ih hrest
    · have hev : e = (k, v) := by
        have h1 : e.1 = k := by simpa [beq_iff_eq] using he
        have h2 : e.2 = v := hall e (List.mem_cons_self e rest) he
        cases e
        simp_all
      rw [hev]
      simp [List.filter_cons, hp, lookupA]

theorem lookupA_filter_drop {α : Type} (m : List (String × α)) (p : String × α → Bool)
    (k : String) (v : α) (hp : p (k, v) = false) :
    (∀ e ∈ m, (e.1 == k) = true → e.2 = v) → lookupA (m.filter p) k = none := by
  induction m with
  | nil => intro _; rfl
  | cons e rest ih =>
    intro hall
    have hrest := fun x hx => hall x (List.mem_cons_of_mem e hx)
    rcases he : (e.1 == k) with _ | _
    · rcases hp2 : p e with _ | _
      · simpa [List.filter_cons, hp2] using ih hrest
      · simp only [List.filter_cons, hp2, if_true]
        simpa [lookupA, he] using ih hrest
    · have hev : e = (k, v) := by
        have h1 : e.1 = k := by simpa [beq_iff_eq] using he
        have h2 : e.2 = v := hall e (List.mem_cons_self e rest) he
        cases e
        simp_all
      rw [hev]
      simp only [List.filter_cons, hp, Bool.false_eq_true, if_false]
      exact ih hrest

theorem getCached_noTs (st : SearchState) (q : String) (now : Nat)
    (h : lookupA st.timestamps (cacheKey q) = none) :
    getCachedSearchResult st q now = none := by
  unfold getCachedSearchResult
  rw [h]

theorem getCached_of_keyVal (st : SearchState) (q : String) (now ts : Nat)
    (res : SearchResult)
    (hts : lookupA st.timestamps (cacheKey q) = some ts)
    (hcv : lookupA st.cache (cacheKey q) = some res)
    (h0 : ts ≠ 0) (hf : now - ts < SEARCH_CACHE_TTL) :
    getCachedSearchResult st q now = some res := by
  unfold getCachedSearchResult
  rw [hts]
  simp [h0, hf, hcv]

theorem getCached_stale (st : SearchState) (q : String) (now ts : Nat)
    (hts : lookupA st.timestamps (cacheKey q) = some ts)
    (hstale : SEARCH_CACHE_TTL ≤ now - ts) :
    getCachedSearchResult st q now = none := by
  unfold getCachedSearchResult
  rw [hts]
  have h2 : ¬ (now - ts < SEARCH_CACHE_TTL) := not_lt.mpr hstale
  simp [h2]

theorem playerSearchCore_cached (exts : List BaseExtension) (ps : List BasePlugin)
    (st : SearchState) (q rb : String) (now : Nat) (res : SearchResult)
    (hc : getCachedSearchResult st q now = some res) :
    playerSearchCore exts ps st q rb now =
      { result := Except.ok res, state := st, calls := [], events := [] } := by
  unfold playerSearchCore
  rw [hc]

theorem playerSearchCore_miss_calls (exts : List BaseExtension) (ps : List BasePlugin)
    (st : SearchState) (q rb : String) (now : Nat)
    (hc : getCachedSearchResult st q now = none)
    (hx : (emProvideSearch exts q rb).1 = none) :
    (playerSearchCore exts ps st q rb now).calls =
      (pluginSearchLoop (searchPlugins ps q) q rb).2.1 := by
  unfold playerSearchCore
  simp only [hc, hx]
  rcases hloop : (pluginSearchLoop (searchPlugins ps q) q rb).1 with _ | r
  · simp [hloop]
  · simp [hloop]

theorem pluginSearchLoop_calls_ne (p : BasePlugin) (rest : List BasePlugin) (q rb : String) :
    (pluginSearchLoop (p :: rest) q rb).2.1 ≠ [] := by
  unfold pluginSearchLoop
  rcases hr : p.search q rb with _ | v
  · simp [hr]
  · rcases v with _ | r
    · simp [hr]
    · rcases htr : r.tracks with _ | ⟨a, as⟩ <;> simp [hr, htr]

theorem playerSearch_caches (exts : List BaseExtension) (ps : List BasePlugin)
    (st0 : SearchState) (q rb : String) (now : Nat) (c : Bool) (res : SearchResult)
    (h0t : lookupA st0.timestamps (cacheKey q) = none)
    (h0c : lookupA st0.cache (cacheKey q) = none)
    (h1 : (playerSearch exts ps st0 q rb now c).result = Except.ok res) :
    keyVal (playerSearch exts ps st0 q rb now c).state.timestamps (cacheKey q) now ∧
    keyVal (playerSearch exts ps st0 q rb now c).state.cache (cacheKey q) res := by
  unfold playerSearch at h1 ⊢
  set st := if c then clearExpiredSearchCache st0 now else st0 with hst
  have hts : lookupA st.timestamps (cacheKey q) = none := by
    rw [hst]
    rcases c with _ | _
    · simpa using h0t
    · simp only [if_true]
      exact lookupA_none_filter _ _ _ h0t
  have hcc : lookupA st.cache (cacheKey q) = none := by
    rw [hst]
    rcases c with _ | _
    · simpa using h0c
    · simp only [if_true]
      exact lookupA_none_filter _ _ _ h0c
  have hmiss : getCachedSearchResult st q now = none := getCached_noTs st q now hts
  unfold playerSearchCore at h1 ⊢
  simp only [hmiss] at h1 ⊢
  rcases hext : (emProvideSearch exts q rb).1 with _ | extRes
  · simp only [hext] at h1 ⊢
    rcases hloop : (pluginSearchLoop (searchPlugins ps q) q rb).1 with _ | res2
    · simp only [hloop] at h1
      exact absurd h1 (by simp)
    · simp only [hloop] at h1 ⊢
      have hr : res2 = res := by simpa using h1
      subst hr
      exact ⟨keyVal_setA _ _ _ hts, keyVal_setA _ _ _ hcc⟩
  · simp only [hext] at h1 ⊢
    have hr : extRes = res := by simpa using h1
    subst hr
    exact ⟨keyVal_setA _ _ _ hts, keyVal_setA _ _ _ hcc⟩

/-- Claim C6: after a successful `Player.search` for a fresh query at time
`t1`, a second call with the identical query within the TTL window returns
the cached result with no provider invocation, and a call at or after
`t1 + TTL` (when extensions do not serve the query and the filtered plugin
list is non-empty) invokes a provider again. -/
theorem c6_search_cache_ttl (exts : List BaseExtension) (ps : List BasePlugin)
    (st0 : SearchState) (q rb : String) (t1 t2 t3 : Nat) (c1 c2 c3 : Bool)
    (res : SearchResult)
    (h0t : lookupA st0.timestamps (cacheKey q) = none)
    (h0c : lookupA st0.cache (cacheKey q) = none)
    (ht1 : t1 ≠ 0)
    (h1 : (playerSearch exts ps st0 q rb t1 c1).result = Except.ok res)
    (h12 : t2 - t1 < SEARCH_CACHE_TTL)
    (h13 : t1 + SEARCH_CACHE_TTL ≤ t3) :
    ((playerSearch exts ps (playerSearch exts ps st0 q rb t1 c1).state q rb t2 c2).result
        = Except.ok res ∧
      (playerSearch exts ps (playerSearch exts ps st0 q rb t1 c1).state q rb t2 c2).calls
        = []) ∧
    (firstSearchAccept exts q rb = none → searchPlugins ps q ≠ [] →
      (playerSearch exts ps (playerSearch exts ps st0 q rb t1 c1).state q rb t3 c3).calls
        ≠ []) := by
  obtain ⟨hkvT, hkvC⟩ := playerSearch_caches exts ps st0 q rb t1 c1 res h0t h0c h1
  set st1 := (playerSearch exts ps st0 q rb t1 c1).state with hst1
  have hstale : SEARCH_CACHE_TTL ≤ t3 - t1 :=
    Nat.le_sub_of_add_le (by omega)
  constructor
  · -- second call: cache hit
    unfold playerSearch
    set st2 := if c2 then clearExpiredSearchCache st1 t2 else st1 with hst2
    have hts2 : lookupA st2.timestamps (cacheKey q) = some t1 := by
      rw [hst2]
      rcases c2 with _ | _
      · simpa using hkvT.1
      · simp only [if_true]
        exact lookupA_filter_some _ _ _ _ (by simpa using h12) hkvT
    have hcv2 : lookupA st2.cache (cacheKey q) = some res := by
      rw [hst2]
      rcases c2 with _ | _
      · simpa using hkvC.1
      · simp only [if_true]
        refine lookupA_filter_some _ _ _ _ ?_ hkvC
        simp only [hkvT.1]
        simpa using h12
    have hc := getCached_of_keyVal st2 q t2 t1 res hts2 hcv2 ht1 h12
    rw [playerSearchCore_cached exts ps st2 q rb t2 res hc]
    exact ⟨rfl, rfl⟩
  · -- third call: cache expired, a provider is invoked again
    intro hxf hsp
    unfold playerSearch
    set st3 := if c3 then clearExpiredSearchCache st1 t3 else st1 with hst3
    have hmiss3 : getCachedSearchResult st3 q t3 = none := by
      rw [hst3]
      rcases c3 with _ | _
      · simp only [Bool.false_eq_true, if_false]
        exact getCached_stale st1 q t3 t1 hkvT.1 hstale
      · simp only [if_true]
        apply getCached_noTs
        exact lookupA_filter_drop _ _ _ t1 (by simpa using not_lt.mpr hstale) hkvT.2
    have hx : (emProvideSearch exts q rb).1 = none := by
      rw [emProvideSearch_fst]
      exact hxf
    rw [playerSearchCore_miss_calls exts ps st3 q rb t3 hmiss3 hx]
    rcases hspl : searchPlugins ps q with _ | ⟨p0, rest⟩
    · exact absurd hspl hsp
    · exact pluginSearchLoop_calls_ne p0 rest q rb

/-- Claim C6 witness: one provider, fresh cache, calls at times 5, 6 and
5 + TTL. -/
theorem c6_search_cache_ttl_witness :
    ((playerSearch [] [pC6] (playerSearch [] [pC6] stEmpty "song" "u" 5 false).state
        "song" "u" 6 false).result = Except.ok resC6 ∧
      (playerSearch [] [pC6] (playerSearch [] [pC6] stEmpty "song" "u" 5 false).state
        "song" "u" 6 false).calls = []) ∧
    (playerSearch [] [pC6] (playerSearch [] [pC6] stEmpty "song" "u" 5 false).state
        "song" "u" (5 + SEARCH_CACHE_TTL) false).calls ≠ [] := by
  have h := c6_search_cache_ttl [] [pC6] stEmpty "song" "u" 5 6 (5 + SEARCH_CACHE_TTL)
    false false false resC6 rfl rfl (by decide) rfl (by decide) (by omega)
  refine ⟨h.1, h.2 rfl ?_⟩
  rw [show searchPlugins [pC6] "song" = [pC6] from rfl]
  exact List.cons_ne_nil _ _

/- ## TTS interrupt -/

theorem getLast?_append_single {α : Type} (l : List α) (a : α) :
    (l ++ [a]).getLast? = some a := by
  induction l with
  | nil => rfl
  | cons x xs ih =>
    rw [List.cons_append]
    cases hxs : xs ++ [a] with
    | nil => exact absurd hxs (by simp)
    | cons y ys =>
      rw [List.getLast?_cons_cons, ← hxs, ih]

/-- Claim C4 (counterexample): with music playing, a live connection and no
plugin able to resolve the TTS stream, the emitted events are
[playerError, ttsEnd] — tts-start is never emitted, because the code only
emits it after stream resolution and resource construction succeed. -/
theorem c4_tts_events_cex : ¬ C4Stated envC4 tC4 := by
  intro h
  have h1 := h.1
  have hact : (interruptWithTTSTrack envC4 tC4).events.head? = some PEvent.playerError := rfl
  rw [hact] at h1
  simp at h1

/-- Claim C4 (amended): tts-end is always the last emitted event and primary
playback is resumed whenever it was active (playing or buffering) before
the call — the finally-block guarantees.  tts-start, however, is emitted if
and only if the connection exists, stream resolution yields a usable stream
and resource construction succeeds; when any of those steps fails the
events are exactly [player-error, tts-end], without tts-start. -/
theorem c4_tts_finally_guarantee (env : TTSEnv) (track : Track) :
    (interruptWithTTSTrack env track).events.getLast? = some PEvent.ttsEnd ∧
    ((env.primaryStatus = AudioStatus.playing ∨ env.primaryStatus = AudioStatus.buffering) →
      (interruptWithTTSTrack env track).resumed = true) ∧
    (env.hasConnection = true →
      ∀ s, (pmGetStream env.plugins track).1 = Except.ok (some s) →
        env.resourceOk = true →
        (interruptWithTTSTrack env track).events = [PEvent.ttsStart, PEvent.ttsEnd]) ∧
    (PEvent.ttsStart ∈ (interruptWithTTSTrack env track).events ↔
      (env.hasConnection = true ∧ env.resourceOk = true ∧
        ∃ s, (pmGetStream env.plugins track).1 = Except.ok (some s))) ∧
    ((env.hasConnection = false ∨
        (∃ e, (pmGetStream env.plugins track).1 = Except.error e) ∨
        (pmGetStream env.plugins track).1 = Except.ok none ∨
        env.resourceOk = false) →
      (interruptWithTTSTrack env track).events = [PEvent.playerError, PEvent.ttsEnd]) := by
  refine ⟨?_, ?_, ?_, ?_, ?_⟩
  · unfold interruptWithTTSTrack
    exact getLast?_append_single _ _
  · intro h
    unfold interruptWithTTSTrack
    rcases h with h | h <;> simp [h]
  · intro hc s hres hr
    simp [interruptWithTTSTrack, hc, hres, hr]
  · rcases hc : env.hasConnection with _ | _
    · simp [interruptWithTTSTrack, hc]
    · rcases hres : (pmGetStream env.plugins track).1 with e | v
      · simp [interruptWithTTSTrack, hc, hres]
      · rcases v with _ | s
        · simp [interruptWithTTSTrack, hc, hres]
        · rcases hrk : env.resourceOk with _ | _
          · simp [interruptWithTTSTrack, hc, hres, hrk]
          · simp [interruptWithTTSTrack, hc, hres, hrk]
  · intro hd
    rcases hc : env.hasConnection with _ | _
    · simp [interruptWithTTSTrack, hc]
    · rcases hres : (pmGetStream env.plugins track).1 with e | v
      · simp [interruptWithTTSTrack, hc, hres]
      · rcases v with _ | s
        · simp [interruptWithTTSTrack, hc, hres]
        · rcases hrk : env.resourceOk with _ | _
          · simp [interruptWithTTSTrack, hc, hres, hrk]
          · exfalso
            rcases hd with hd | ⟨e2, hd⟩ | hd | hd
            · rw [hc] at hd
              exact absurd hd (by simp)
            · rw [hres] at hd
              exact absurd hd (by simp)
            · rw [hres] at hd
              exact absurd hd (by simp)
            · rw [hrk] at hd
              exact absurd hd (by simp)

/-- Claim C4 witness: when everything succeeds the events are exactly
[ttsStart, ttsEnd] and primary playback (active before) is resumed; at the
counterexample environment (stream resolution returns null) the events are
exactly [playerError, ttsEnd], without tts-start. -/
theorem c4_tts_finally_guarantee_witness :
    (interruptWithTTSTrack envC4ok tC4).events = [PEvent.ttsStart, PEvent.ttsEnd] ∧
    (interruptWithTTSTrack envC4ok tC4).resumed = true ∧
    (interruptWithTTSTrack envC4 tC4).events = [PEvent.playerError, PEvent.ttsEnd] := by
  have h := c4_tts_finally_guarantee envC4ok tC4
  have h2 := c4_tts_finally_guarantee envC4 tC4
  exact ⟨h.2.2.1 rfl sC4 rfl rfl, h.2.1 (Or.inl rfl),
    h2.2.2.2.2 (Or.inr (Or.inr (Or.inl rfl)))⟩

/- ## Play and resolution failure -/

theorem playerSearch_error_shape (exts : List BaseExtension) (ps : List BasePlugin)
    (st0 : SearchState) (q rb : String) (now : Nat) (c : Bool) (m : String)
    (h : (playerSearch exts ps st0 q rb now c).result = Except.error m) :
    m = String.append "No plugin found to handle: " q ∧
    ((playerSearch exts ps st0 q rb now c).events = [PEvent.playerError] ∨
      (playerSearch exts ps st0 q rb now c).events = []) := by
  unfold playerSearch at h ⊢
  set st := if c then clearExpiredSearchCache st0 now else st0
  unfold playerSearchCore at h ⊢
  rcases hc : getCachedSearchResult st q now with _ | cached
  · simp only [hc] at h ⊢
    rcases hext : (emProvideSearch exts q rb).1 with _ | extRes
    · simp only [hext] at h ⊢
      rcases hloop : (pluginSearchLoop (searchPlugins ps q) q rb).1 with _ | res2
      · simp only [hloop] at h ⊢
        simp only [Except.error.injEq] at h
        refine ⟨h.symm, ?_⟩
        rcases hfl : (pluginSearchLoop (searchPlugins ps q) q rb).2.2 with _ | _
        · right; simp [hfl]
        · left; simp [hfl]
      · simp only [hloop] at h
        exact absurd h (by simp)
    · simp only [hext] at h
      exact absurd h (by simp)
  · simp only [hc] at h
    exact absurd h (by simp)

theorem fillRequestedBy_self (q : Sum String Track) (rb : Option String) :
    fillRequestedBy { query := q, requestedBy := rb } rb = { query := q, requestedBy := rb } := by
  cases rb <;> rfl

theorem pluginSearchLoop_flag (ps : List BasePlugin) (q rb : String)
    (h : (pluginSearchLoop ps q rb).1 = none) :
    ((pluginSearchLoop ps q rb).2.2 = true ↔
      ∃ p ∈ ps, p.search q rb = CallOutcome.throws) := by
  induction ps with
  | nil => simp [pluginSearchLoop]
  | cons p rest ih =>
    unfold pluginSearchLoop at h ⊢
    rcases hr : p.search q rb with _ | v
    · simp only [hr] at h ⊢
      constructor
      · intro _
        exact ⟨p, List.mem_cons_self p rest, hr⟩
      · intro _
        trivial
    · rcases v with _ | res
      · simp only [hr] at h ⊢
        rw [ih h]
        constructor
        · rintro ⟨p2, hp2, hthr⟩
          exact ⟨p2, List.mem_cons_of_mem p hp2, hthr⟩
        · rintro ⟨p2, hp2, hthr⟩
          rcases List.mem_cons.mp hp2 with rfl | hp3
          · rw [hr] at hthr
            exact absurd hthr (by simp)
          · exact ⟨p2, hp3, hthr⟩
      · rcases htr : res.tracks with _ | ⟨a, as⟩
        · simp only [hr, htr, List.isEmpty_nil, if_true] at h ⊢
          rw [ih h]
          constructor
          · rintro ⟨p2, hp2, hthr⟩
            exact ⟨p2, List.mem_cons_of_mem p hp2, hthr⟩
          · rintro ⟨p2, hp2, hthr⟩
            rcases List.mem_cons.mp hp2 with rfl | hp3
            · rw [hr] at hthr
              exact absurd hthr (by simp)
            · exact ⟨p2, hp3, hthr⟩
        · simp only [hr, htr, List.isEmpty_cons, Bool.false_eq_true, if_false] at h
          exact absurd h (by simp)

theorem playerSearch_error_events (exts : List BaseExtension) (ps : List BasePlugin)
    (st0 : SearchState) (q rb : String) (now : Nat) (c : Bool) (m : String)
    (h : (playerSearch exts ps st0 q rb now c).result = Except.error m) :
    (pluginSearchLoop (searchPlugins ps q) q rb).1 = none ∧
    (playerSearch exts ps st0 q rb now c).events =
      (if (pluginSearchLoop (searchPlugins ps q) q rb).2.2 = true then [PEvent.playerError]
        else []) := by
  unfold playerSearch at h ⊢
  set st := if c then clearExpiredSearchCache st0 now else st0
  unfold playerSearchCore at h ⊢
  rcases hc : getCachedSearchResult st q now with _ | cached
  · simp only [hc] at h ⊢
    rcases hext : (emProvideSearch exts q rb).1 with _ | extRes
    · simp only [hext] at h ⊢
      rcases hloop : (pluginSearchLoop (searchPlugins ps q) q rb).1 with _ | res2
      · refine ⟨rfl, ?_⟩
        simp
      · simp only [hloop] at h
        exact absurd h (by simp)
    · simp only [hext] at h
      exact absurd h (by simp)
  · simp only [hc] at h
    exact absurd h (by simp)

/-- Claim C3 (counterexample): with one provider that resolves an empty
result (no throw) and no extensions, `Player.search` throws "No plugin
found to handle: x" but emits no player-error event (`lastError` is null),
and `Player.play` does not reject: it resolves false — falsifying both the
"play surfaces a thrown error" and the "search additionally emits a
player-error event" parts of the claim. -/
theorem c3_resolution_failure_cex : ¬ C3Stated envC3 pstC3 "x" (some "u") 5 false := by
  intro h
  obtain ⟨hev, _⟩ := h ⟨String.append "No plugin found to handle: " "x", rfl⟩
  have hact : (playerSearch envC3.extensions envC3.plugins pstC3.searchState "x"
      (jsOrStr (some "u") "Unknown") 5 false).events = [] := rfl
  rw [hact] at hev
  simp at hev

/-- Claim C3 (amended): when textual resolution fails (hooks left the
request untouched and the search rejected), `Player.search` throws the
"No plugin found to handle" error naming the query and emits a player-error
event exactly when some provider's search attempt itself threw — providers
merely returning no tracks emit nothing — while `Player.play` does not
rethrow: it emits player-error and resolves false; the session remains
usable (play always resolves). -/
theorem c3_resolution_failure_behavior (env : PlayEnv) (st : PlayerSt)
    (q : String) (rb : Option String) (now : Nat) (cl : Bool) (m : String)
    (hb : runBeforePlayHooks env.extensions { query := Sum.inl q, requestedBy := rb } =
      ({ query := Sum.inl q, requestedBy := rb }, emptyResponse))
    (hs : (playerSearch env.extensions env.plugins st.searchState q
        (jsOrStr rb "Unknown") now cl).result = Except.error m) :
    m = String.append "No plugin found to handle: " q ∧
    ((playerSearch env.extensions env.plugins st.searchState q
        (jsOrStr rb "Unknown") now cl).events = [PEvent.playerError] ∨
      (playerSearch env.extensions env.plugins st.searchState q
        (jsOrStr rb "Unknown") now cl).events = []) ∧
    (playerPlayStr env st q rb now cl).result = Except.ok false ∧
    PEvent.playerError ∈ (playerPlayStr env st q rb now cl).events ∧
    ((playerSearch env.extensions env.plugins st.searchState q
        (jsOrStr rb "Unknown") now cl).events = [PEvent.playerError] ↔
      ∃ p ∈ searchPlugins env.plugins q,
        p.search q (jsOrStr rb "Unknown") = CallOutcome.throws) := by
  have hshape := playerSearch_error_shape env.extensions env.plugins st.searchState q
    (jsOrStr rb "Unknown") now cl m hs
  have hplay : (playerPlayStr env st q rb now cl).result = Except.ok false ∧
      PEvent.playerError ∈ (playerPlayStr env st q rb now cl).events := by
    unfold playerPlayStr
    rw [hb]
    unfold playPhase
    simp only [fillRequestedBy_self, emptyResponse]
    simp [hs]
  have hcorr : (playerSearch env.extensions env.plugins st.searchState q
      (jsOrStr rb "Unknown") now cl).events = [PEvent.playerError] ↔
      ∃ p ∈ searchPlugins env.plugins q,
        p.search q (jsOrStr rb "Unknown") = CallOutcome.throws := by
    obtain ⟨hln, hev⟩ := playerSearch_error_events env.extensions env.plugins st.searchState q
      (jsOrStr rb "Unknown") now cl m hs
    have hiff := pluginSearchLoop_flag (searchPlugins env.plugins q) q
      (jsOrStr rb "Unknown") hln
    rw [hev]
    rcases hfl : (pluginSearchLoop (searchPlugins env.plugins q) q
        (jsOrStr rb "Unknown")).2.2 with _ | _
    · simp only [hfl, Bool.false_eq_true, if_false]
      constructor
      · intro habs
        exact absurd habs (by simp)
      · intro hex
        exact absurd (hiff.mpr hex) (by simp [hfl])
    · simp only [hfl, if_true]
      refine ⟨fun _ => hiff.mp hfl, fun _ => ?_⟩
      trivial
  exact ⟨hshape.1, hshape.2, hplay.1, hplay.2, hcorr⟩

/-- Claim C3 witness: the amended behavior at the counterexample input — the
single provider resolves an empty result without throwing, so play resolves
false with a player-error event while the search call emits nothing (the
emission-iff-throw correlation instantiated with its right side false). -/
theorem c3_resolution_failure_behavior_witness :
    (playerPlayStr envC3 pstC3 "x" (some "u") 5 false).result = Except.ok false ∧
    PEvent.playerError ∈ (playerPlayStr envC3 pstC3 "x" (some "u") 5 false).events ∧
    ¬ ((playerSearch envC3.extensions envC3.plugins pstC3.searchState "x"
        (jsOrStr (some "u") "Unknown") 5 false).events = [PEvent.playerError]) := by
  have h := c3_resolution_failure_behavior envC3 pstC3 "x" (some "u") 5 false
    (String.append "No plugin found to handle: " "x") rfl rfl
  refine ⟨h.2.2.1, h.2.2.2.1, ?_⟩
  intro habs
  obtain ⟨p, hp, hthr⟩ := h.2.2.2.2.mp habs
  have hsp : searchPlugins envC3.plugins "x" = [pC3e] := rfl
  rw [hsp] at hp
  rcases List.mem_singleton.mp hp with rfl
  simp [pC3e] at hthr

/- ## Frozen after-play payload -/

theorem applyMut_frozen (c : PayloadCell) (h1 : c.objFrozen = true)
    (h2 : c.tracksFrozen = true ∨ c.value.tracks = none) (m : PayloadMut) :
    applyMut c m = c := by
  rcases m with b | qv | r | vv | b | b | it | t
  · simp [applyMut, h1]
  · simp [applyMut, h1]
  · simp [applyMut, h1]
  · simp [applyMut, h1]
  · simp [applyMut, h1]
  · simp [applyMut, h1]
  · rcases h2 with h2 | h2
    · simp [applyMut, h2]
    · rcases hf : c.tracksFrozen with _ | _
      · simp only [applyMut, hf, Bool.false_eq_true, if_false, h2, Option.map_none']
        rw [← h2, ← hf]
      · simp [applyMut, hf]
  · rcases h2 with h2 | h2
    · simp [applyMut, h2]
    · rcases hf : c.tracksFrozen with _ | _
      · simp only [applyMut, hf, Bool.false_eq_true, if_false, h2, Option.map_none']
        rw [← h2, ← hf]
      · simp [applyMut, hf]

theorem foldl_applyMut_frozen (c : PayloadCell) (h1 : c.objFrozen = true)
    (h2 : c.tracksFrozen = true ∨ c.value.tracks = none) (ms : List PayloadMut) :
    ms.foldl applyMut c = c := by
  induction ms with
  | nil => rfl
  | cons m ms ih =>
    rw [List.foldl_cons, applyMut_frozen c h1 h2 m]
    exact ih

theorem afterGo_const (hooks : List (AfterPayloadObj → List PayloadMut)) (c : PayloadCell)
    (h1 : c.objFrozen = true) (h2 : c.tracksFrozen = true ∨ c.value.tracks = none) :
    afterGo hooks c = (c, List.replicate hooks.length c.value) := by
  induction hooks with
  | nil => rfl
  | cons hfun rest ih =>
    unfold afterGo
    rw [foldl_applyMut_frozen c h1 h2 (hfun c.value)]
    simp [ih, List.replicate_succ]

/-- Claim C7: the after-play payload is frozen — and its tracks array is a
frozen copy — before any hook runs; consequently no hook invocation can
change the payload's fields or the track list through it: every hook in the
chain observes exactly the initial snapshot, and the payload is unchanged
after the whole chain, whatever mutations the hooks attempt. -/
theorem c7_afterplay_payload_frozen
    (hooks : List (AfterPayloadObj → List PayloadMut)) (p : AfterPayloadObj) :
    (freezeAfterPayload p).objFrozen = true ∧
    (p.tracks.isSome = true → (freezeAfterPayload p).tracksFrozen = true) ∧
    (runAfterPlayHooksM hooks p).2 = List.replicate hooks.length p ∧
    (runAfterPlayHooksM hooks p).1 = freezeAfterPayload p := by
  have h2 : (freezeAfterPayload p).tracksFrozen = true ∨
      (freezeAfterPayload p).value.tracks = none := by
    rcases hp : p.tracks with _ | ts
    · right
      simp [freezeAfterPayload, hp]
    · left
      simp [freezeAfterPayload, hp]
  have hg := afterGo_const hooks (freezeAfterPayload p) rfl h2
  unfold runAfterPlayHooksM
  rw [hg]
  exact ⟨rfl, fun h => by simp [freezeAfterPayload, h], rfl, rfl⟩

/- ## Audio filters -/

/-- Claim C8: applying a predefined filter name that is not currently active
succeeds and appends that filter exactly once; an immediately following
call with the same name fails and leaves the active-filter list unchanged. -/
theorem c8_applyFilter_once_then_reject (active : List AudioFilter) (name : String)
    (af : AudioFilter)
    (hf : lookupA PREDEFINED_FILTERS name = some af)
    (hn : active.any (fun f => f.name == af.name) = false) :
    applyFilter active (Sum.inl name) = (true, active ++ [af]) ∧
    (active ++ [af]).filter (fun f => f.name == af.name) = [af] ∧
    applyFilter (active ++ [af]) (Sum.inl name) = (false, active ++ [af]) := by
  have hnil : active.filter (fun f => f.name == af.name) = [] := by
    rw [List.filter_eq_nil_iff]
    intro a ha
    have := List.any_eq_false.mp hn a ha
    simpa using this
  refine ⟨?_, ?_, ?_⟩
  · unfold applyFilter
    simp only [hf]
    unfold applyFilterCore
    simp [hn]
  · rw [List.filter_append, hnil]
    simp
  · unfold applyFilter
    simp only [hf]
    unfold applyFilterCore
    have hany : (active ++ [af]).any (fun f => f.name == af.name) = true := by
      simp [List.any_append]
    simp [hany]

/-- Claim C8 witness: "bassboost" on an empty active list. -/
theorem c8_applyFilter_once_then_reject_witness :
    applyFilter [] (Sum.inl "bassboost") =
      (true, [{ name := "bassboost", ffmpegFilter := "bass=g=10:f=110:w=0.5",
                description := "Bass Boost", category := some "eq" }]) ∧
    applyFilter [{ name := "bassboost", ffmpegFilter := "bass=g=10:f=110:w=0.5",
                   description := "Bass Boost", category := some "eq" }]
        (Sum.inl "bassboost") =
      (false, [{ name := "bassboost", ffmpegFilter := "bass=g=10:f=110:w=0.5",
                 description := "Bass Boost", category := some "eq" }]) := by
  have h := c8_applyFilter_once_then_reject []
    "bassboost"
    { name := "bassboost", ffmpegFilter := "bass=g=10:f=110:w=0.5",
      description := "Bass Boost", category := some "eq" } rfl rfl
  exact ⟨h.1, h.2.2⟩

/- ## Volume guard -/

/-- Claim C9: `setVolume` rejects any value outside [0,200], leaving the
stored volume and the resource volume unchanged; any value in [0,200] is
accepted, the stored volume becomes exactly `v`, and the resource volume
(when a resource exists) ramps to `v / 100`. -/
theorem c9_setVolume_range_guard (st : VolSt) (v : ℚ) :
    ((v < 0 ∨ 200 < v) → setVolume st v = (false, st)) ∧
    (0 ≤ v → v ≤ 200 →
      setVolume st v =
        (true, { volume := v,
                 resourceVolume := st.resourceVolume.map (fun _ => v / 100) })) := by
  constructor
  · intro h
    unfold setVolume
    simp [h]
  · intro h1 h2
    have h3 : ¬ (v < 0 ∨ 200 < v) := by
      rintro (hl | hr)
      · linarith
      · linarith
    unfold setVolume
    simp only [h3, if_false]
    have hr : ∀ start : ℚ, rampStep start (v / 100) 10 10 = v / 100 := by
      intro start
      unfold rampStep
      ring
    simp [hr]

/-- Claim C9 witness: from volume 100 with a live resource, 300 is rejected
unchanged and 50 is accepted, storing 50 and ramping the resource to 1/2. -/
theorem c9_setVolume_range_guard_witness :
    setVolume { volume := 100, resourceVolume := some 1 } 300 =
      (false, { volume := 100, resourceVolume := some 1 }) ∧
    setVolume { volume := 100, resourceVolume := some 1 } 50 =
      (true, { volume := 50, resourceVolume := some (1 / 2) }) := by
  have ha := c9_setVolume_range_guard { volume := 100, resourceVolume := some 1 } 300
  have hb := c9_setVolume_range_guard { volume := 100, resourceVolume := some 1 } 50
  refine ⟨ha.1 (Or.inr (by norm_num)), ?_⟩
  have h2 := hb.2 (by norm_num) (by norm_num)
  rw [h2]
  norm_num

end ZiPlayer
